import Mathlib

set_option maxHeartbeats 1000000
set_option maxRecDepth 8000
set_option linter.unusedVariables false
set_option linter.unnecessarySimpa false

namespace UserRec

/- ### Python / pandas string primitives (ASCII model) -/

/-- Whitespace as recognized by Python str.strip and the regex class \s (ASCII range). -/
def pyIsSpace (c : Char) : Bool :=
  c == ' ' || c == '\t' || c == '\n' || c == '\r' || c == '\x0b' || c == '\x0c'

/-- Underlying character list of a string. -/
def strChars (s : String) : List Char := s.data

/-- Python str.strip. -/
def pyStrip (s : String) : List Char :=
  ((strChars s).dropWhile pyIsSpace).reverse.dropWhile pyIsSpace |>.reverse

/-- Python str.upper, modelled on ASCII letters. -/
def pyUpper (l : List Char) : List Char := l.map Char.toUpper

/- ### C1: CoursePreprocessor._normalize_enrollment -/

/-- Characters matched by the regex class [\d.] (ASCII model). -/
def isNumChar (c : Char) : Bool := c.isDigit || c == '.'

/-- re.search for the group ([\d.]+): the leftmost maximal run of digit/dot
characters, together with the remainder of the string after the run; `none`
when the string has no digit or dot at all. -/
def searchNumRun : List Char → Option (List Char × List Char)
  | [] => none
  | c :: cs =>
    if isNumChar c then
      some ((c :: cs).takeWhile isNumChar, (c :: cs).dropWhile isNumChar)
    else searchNumRun cs

/-- Numeric value of a list of decimal digit characters. -/
def digitsVal (ds : List Char) : ℕ := ds.foldl (fun a c => 10 * a + (c.toNat - 48)) 0

/-- Python float() applied to a token made only of digits and dots: defined iff
the token has at least one digit and at most one dot (float "." raises
ValueError).  Python floats are modelled as exact rationals. -/
def pyFloatNum? (tok : List Char) : Option ℚ :=
  if (tok.filter (fun c => c == '.')).length ≤ 1 ∧ tok.any Char.isDigit then
    let intPart := tok.takeWhile (fun c => c != '.')
    let fracPart := (tok.dropWhile (fun c => c != '.')).drop 1
    some ((digitsVal intPart : ℚ) + (digitsVal fracPart : ℚ) / 10 ^ fracPart.length)
  else none

/-- CoursePreprocessor._normalize_enrollment (preprocessing.py).  `none` models a
missing (NaN) value.  The result is an `Except` because Python float() raises
ValueError when the matched token is not a valid number literal (e.g. "."). -/
def normalize_enrollment (enrollment_str : Option String) : Except String ℚ :=
  match enrollment_str with
  | none => .ok 0
  | some s =>
    match searchNumRun (pyUpper (pyStrip s)) with
    | none => .ok 0
    | some (tok, rest) =>
      match pyFloatNum? tok with
      | none => .error "ValueError: could not convert string to float"
      | some number =>
        match (rest.dropWhile pyIsSpace).head? with
        | some 'M' => .ok (number * 1000000)
        | some 'K' => .ok (number * 1000)
        | _ => .ok number

/- Auxiliary character-class lemmas for the amended C1 statement. -/

def digitChars : List Char := ['0','1','2','3','4','5','6','7','8','9']

lemma digit_char_facts {a : Char} (h : a ∈ digitChars) :
    pyIsSpace a = false ∧ Char.toUpper a = a ∧ isNumChar a = true ∧
      (a == '.') = false ∧ a.isDigit = true := by
  fin_cases h <;> exact ⟨rfl, rfl, rfl, rfl, rfl⟩

lemma takeWhile_all_true {p : Char → Bool} :
    ∀ {l : List Char}, (∀ a ∈ l, p a = true) → l.takeWhile p = l := by
  intro l h
  induction l with
  | nil => rfl
  | cons a l ih =>
    have ha := h a (by simp)
    simp only [List.takeWhile_cons, ha, if_true]
    exact congrArg (a :: ·) (ih fun b hb => h b (by simp [hb]))

lemma dropWhile_all_true {p : Char → Bool} :
    ∀ {l : List Char}, (∀ a ∈ l, p a = true) → l.dropWhile p = [] := by
  intro l h
  induction l with
  | nil => rfl
  | cons a l ih =>
    have ha := h a (by simp)
    simp only [List.dropWhile_cons, ha, if_true]
    exact ih fun b hb => h b (by simp [hb])

lemma takeWhile_append_all {p : Char → Bool} {l r : List Char}
    (h : ∀ a ∈ l, p a = true) : (l ++ r).takeWhile p = l ++ r.takeWhile p := by
  induction l with
  | nil => simp
  | cons a l ih =>
    have ha := h a (by simp)
    simp only [List.cons_append, List.takeWhile_cons, ha, if_true]
    exact congrArg (a :: ·) (ih fun b hb => h b (by simp [hb]))

lemma dropWhile_append_all {p : Char → Bool} {l r : List Char}
    (h : ∀ a ∈ l, p a = true) : (l ++ r).dropWhile p = r.dropWhile p := by
  induction l with
  | nil => simp
  | cons a l ih =>
    have ha := h a (by simp)
    simp only [List.cons_append, List.dropWhile_cons, ha, if_true]
    exact ih fun b hb => h b (by simp [hb])

lemma map_toUpper_fixed : ∀ {l : List Char}, (∀ a ∈ l, Char.toUpper a = a) →
    l.map Char.toUpper = l := by
  intro l h
  induction l with
  | nil => rfl
  | cons a l ih =>
    simp only [List.map_cons, h a (by simp)]
    exact congrArg (a :: ·) (ih fun b hb => h b (by simp [hb]))

lemma dropWhile_all_false {p : Char → Bool} {l : List Char}
    (h : ∀ a ∈ l, p a = false) : l.dropWhile p = l := by
  cases l with
  | nil => rfl
  | cons a t =>
    rw [List.dropWhile_cons, h a (by simp)]
    simp

/-- Python strip is the identity on strings with no leading/trailing whitespace;
we use the stronger hypothesis that no character is whitespace. -/
lemma strip_no_space {l : List Char} (h : ∀ a ∈ l, pyIsSpace a = false) :
    pyStrip (String.mk l) = l := by
  show ((l.dropWhile pyIsSpace).reverse.dropWhile pyIsSpace).reverse = l
  rw [dropWhile_all_false h,
    dropWhile_all_false (fun a ha => h a (List.mem_reverse.mp ha)),
    List.reverse_reverse]

lemma prep_digits_append {ds : List Char} (c : Char) (hne : ds ≠ [])
    (hd : ∀ a ∈ ds, a ∈ digitChars) (hcs : pyIsSpace c = false)
    (hcu : Char.toUpper c = c) :
    pyUpper (pyStrip (String.mk (ds ++ [c]))) = ds ++ [c] := by
  rw [strip_no_space, pyUpper, map_toUpper_fixed]
  · intro a ha
    rcases List.mem_append.mp ha with h | h
    · exact (digit_char_facts (hd a h)).2.1
    · simp only [List.mem_singleton] at h; rw [h]; exact hcu
  · intro a ha
    rcases List.mem_append.mp ha with h | h
    · exact (digit_char_facts (hd a h)).1
    · simp only [List.mem_singleton] at h; rw [h]; exact hcs

lemma prep_digits_only {ds : List Char} (hd : ∀ a ∈ ds, a ∈ digitChars) :
    pyUpper (pyStrip (String.mk ds)) = ds := by
  rw [strip_no_space fun a ha => (digit_char_facts (hd a ha)).1, pyUpper,
    map_toUpper_fixed fun a ha => (digit_char_facts (hd a ha)).2.1]

lemma searchNumRun_digits_append {ds : List Char} (c : Char) (hne : ds ≠ [])
    (hd : ∀ a ∈ ds, a ∈ digitChars) (hc : isNumChar c = false) :
    searchNumRun (ds ++ [c]) = some (ds, [c]) := by
  obtain ⟨d, ds', rfl⟩ := List.exists_cons_of_ne_nil hne
  have hnum : ∀ a ∈ d :: ds', isNumChar a = true :=
    fun a ha => (digit_char_facts (hd a ha)).2.2.1
  rw [List.cons_append, searchNumRun, if_pos (by exact_mod_cast hnum d (by simp)),
    ← List.cons_append, takeWhile_append_all hnum, dropWhile_append_all hnum]
  simp [List.takeWhile_cons, List.dropWhile_cons, hc]

lemma searchNumRun_digits_only {ds : List Char} (hne : ds ≠ [])
    (hd : ∀ a ∈ ds, a ∈ digitChars) :
    searchNumRun ds = some (ds, []) := by
  obtain ⟨d, ds', rfl⟩ := List.exists_cons_of_ne_nil hne
  have hnum : ∀ a ∈ d :: ds', isNumChar a = true :=
    fun a ha => (digit_char_facts (hd a ha)).2.2.1
  rw [searchNumRun, if_pos (by exact_mod_cast hnum d (by simp)),
    takeWhile_all_true hnum, dropWhile_all_true hnum]

lemma pyFloatNum_digits {ds : List Char} (hne : ds ≠ [])
    (hd : ∀ a ∈ ds, a ∈ digitChars) :
    pyFloatNum? ds = some (digitsVal ds : ℚ) := by
  obtain ⟨d, ds', rfl⟩ := List.exists_cons_of_ne_nil hne
  have hdot : ∀ a ∈ d :: ds', (a == '.') = false :=
    fun a ha => (digit_char_facts (hd a ha)).2.2.2.1
  have hnd : ∀ a ∈ d :: ds', (a != '.') = true := by
    intro a ha; simp [bne, hdot a ha]
  rw [pyFloatNum?, if_pos]
  · rw [takeWhile_all_true hnd, dropWhile_all_true hnd]
    have h0 : digitsVal [] = 0 := rfl
    simp [h0]
  · constructor
    · rw [List.filter_eq_nil_iff.mpr (fun a ha => by simp [hdot a ha])]
      simp
    · exact List.any_eq_true.mpr ⟨d, by simp, (digit_char_facts (hd d (by simp))).2.2.2.2⟩

lemma normalize_digits_suffix (ds : List Char) (hne : ds ≠ [])
    (hd : ∀ a ∈ ds, a ∈ digitChars) :
    normalize_enrollment (some (String.mk (ds ++ ['K']))) = .ok ((digitsVal ds : ℚ) * 1000) ∧
    normalize_enrollment (some (String.mk (ds ++ ['M']))) = .ok ((digitsVal ds : ℚ) * 1000000) ∧
    normalize_enrollment (some (String.mk ds)) = .ok (digitsVal ds : ℚ) := by
  refine ⟨?_, ?_, ?_⟩
  · simp only [normalize_enrollment, prep_digits_append 'K' hne hd (by decide) (by decide),
      searchNumRun_digits_append 'K' hne hd (by decide), pyFloatNum_digits hne hd]
    simp [pyIsSpace]
  · simp only [normalize_enrollment, prep_digits_append 'M' hne hd (by decide) (by decide),
      searchNumRun_digits_append 'M' hne hd (by decide), pyFloatNum_digits hne hd]
    simp [pyIsSpace]
  · simp only [normalize_enrollment, prep_digits_only hd,
      searchNumRun_digits_only hne hd, pyFloatNum_digits hne hd]
    simp

instance : DecidableEq (Except String ℚ) := fun a b =>
  match a, b with
  | .ok x, .ok y => if h : x = y then .isTrue (by rw [h]) else .isFalse (by simp [h])
  | .error x, .error y => if h : x = y then .isTrue (by rw [h]) else .isFalse (by simp [h])
  | .ok _, .error _ => .isFalse (by simp)
  | .error _, .ok _ => .isFalse (by simp)

/-- C1 counterexample: the input "." is unparseable (Python float(".") is a
ValueError), yet _normalize_enrollment does not map it to 0 — the regex
[\d.]+ matches the lone dot and float() raises, so the function raises
instead of returning 0 as the claim states. -/
theorem C1_normalize_enrollment_counterexample :
    normalize_enrollment (some ".") =
      Except.error "ValueError: could not convert string to float" := by
  rfl

/-- C1 (amended): _normalize_enrollment parses the leftmost run of digit/dot
characters of the (stripped, upper-cased) input with an optional K/M suffix
(K multiplies by 1,000, M by 1,000,000, no suffix by 1): "1.2M" maps to
1_200_000, "950K" to 950_000, "500" to 500; a missing value or a string with
no digit/dot character maps to 0; but when the matched run is not a valid
number (e.g. "."), the function raises ValueError instead of returning 0. -/
theorem C1_normalize_enrollment_amended :
    (normalize_enrollment none = .ok 0 ∧
     normalize_enrollment (some "1.2M") = .ok 1200000 ∧
     normalize_enrollment (some "950K") = .ok 950000 ∧
     normalize_enrollment (some "500") = .ok 500 ∧
     normalize_enrollment (some "N/A") = .ok 0 ∧
     normalize_enrollment (some "") = .ok 0) ∧
    (∀ s, searchNumRun (pyUpper (pyStrip s)) = none →
      normalize_enrollment (some s) = .ok 0) ∧
    (∀ s tok rest, searchNumRun (pyUpper (pyStrip s)) = some (tok, rest) →
      pyFloatNum? tok = none →
      normalize_enrollment (some s) =
        .error "ValueError: could not convert string to float") ∧
    (∀ ds : List Char, ds ≠ [] → (∀ a ∈ ds, a ∈ digitChars) →
      normalize_enrollment (some (String.mk (ds ++ ['K']))) =
        .ok ((digitsVal ds : ℚ) * 1000) ∧
      normalize_enrollment (some (String.mk (ds ++ ['M']))) =
        .ok ((digitsVal ds : ℚ) * 1000000) ∧
      normalize_enrollment (some (String.mk ds)) = .ok (digitsVal ds : ℚ)) := by
  refine ⟨⟨rfl, ?_, ?_, ?_, by decide, rfl⟩, ?_, ?_, normalize_digits_suffix⟩
  · -- "1.2M"
    have h1 : searchNumRun (pyUpper (pyStrip "1.2M")) = some (['1','.','2'], ['M']) := by
      decide
    have h2 : pyFloatNum? ['1','.','2'] = some ((1:ℚ) + 2 / 10 ^ (1:ℕ)) := by
      rw [pyFloatNum?.eq_def, if_pos (by decide),
        show (['1','.','2'].takeWhile (fun c => c != '.')) = ['1'] from by decide,
        show ((['1','.','2'].dropWhile (fun c => c != '.')).drop 1) = ['2'] from by decide]
      show some ((digitsVal ['1'] : ℚ) + (digitsVal ['2'] : ℚ) /
        10 ^ (['2'] : List Char).length) = _
      rw [show digitsVal ['1'] = 1 from by decide, show digitsVal ['2'] = 2 from by decide]
      norm_num
    have h3 : List.dropWhile pyIsSpace ['M'] = ['M'] := by decide
    simp only [normalize_enrollment, h1, h2, h3, List.head?_cons]
    exact congrArg Except.ok (by norm_num)
  · -- "950K"
    have h := (normalize_digits_suffix ['9','5','0'] (by decide) (by decide)).1
    rw [show String.mk (['9','5','0'] ++ ['K']) = "950K" from rfl,
      show digitsVal ['9','5','0'] = 950 from by decide] at h
    rw [h]
    norm_num
  · -- "500"
    have h := (normalize_digits_suffix ['5','0','0'] (by decide) (by decide)).2.2
    rw [show String.mk ['5','0','0'] = "500" from rfl,
      show digitsVal ['5','0','0'] = 500 from by decide] at h
    rw [h]
    norm_num
  · intro s h
    rw [normalize_enrollment, h]
  · intro s tok rest h hf
    simp only [normalize_enrollment, h, hf]

/-- Witness for C1: the general digit-suffix clause and the ValueError clause of
the amended statement, instantiated at concrete inputs. -/
theorem C1_normalize_enrollment_amended_witness :
    normalize_enrollment (some (String.mk (['9','5','0'] ++ ['K']))) =
      .ok ((digitsVal ['9','5','0'] : ℚ) * 1000) ∧
    normalize_enrollment (some "..") =
      .error "ValueError: could not convert string to float" :=
  ⟨(C1_normalize_enrollment_amended.2.2.2 ['9','5','0'] (by decide) (by decide)).1,
   C1_normalize_enrollment_amended.2.2.1 ".." ['.','.'] [] (by rfl) (by rfl)⟩

/- ### C2: calculate_elbow_k (train.py) -/

/-- np.diff: first differences of a list (element i is l[i+1] - l[i]). -/
def np_diff (l : List ℚ) : List ℚ := List.zipWith (fun b a => b - a) l.tail l

/-- np.argmax: index of the first occurrence of the maximum (0 on junk input). -/
def np_argmax : List ℚ → ℕ
  | [] => 0
  | [_] => 0
  | x :: y :: xs =>
    let j := np_argmax (y :: xs)
    if x < (y :: xs).getD j 0 then j + 1 else 0

/-- calculate_elbow_k from train.py, with the KMeans inertia sweep abstracted as
the input list of inertias (one entry per candidate k in [min_k, max_k]). -/
def calculate_elbow_k (inertias : List ℚ) (max_k : ℕ := 15) (min_k : ℕ := 2) : ℕ :=
  if inertias.length < 3 then min_k + 1
  else max (min_k + 1) (min (np_argmax (np_diff (np_diff inertias)) + min_k + 2) max_k)

lemma np_argmax_spec : ∀ (l : List ℚ), l ≠ [] →
    np_argmax l < l.length ∧
    (∀ j < l.length, l.getD j 0 ≤ l.getD (np_argmax l) 0) ∧
    (∀ j < np_argmax l, l.getD j 0 < l.getD (np_argmax l) 0) := by
  intro l
  induction l with
  | nil => intro h; exact absurd rfl h
  | cons x t ih =>
    intro _
    cases t with
    | nil =>
      refine ⟨by simp [np_argmax], ?_, ?_⟩
      · intro j hj
        have hj1 : j = 0 := by simp at hj; omega
        subst hj1
        simp [np_argmax]
      · intro j hj
        simp [np_argmax] at hj
    | cons y xs =>
      obtain ⟨ihlt, ihmax, ihfirst⟩ := ih (by simp)
      show (let j := np_argmax (y :: xs);
        if x < (y :: xs).getD j 0 then j + 1 else 0) < _ ∧ _
      by_cases hx : x < (y :: xs).getD (np_argmax (y :: xs)) 0
      · simp only [np_argmax, hx, if_true]
        refine ⟨by simpa using ihlt, ?_, ?_⟩
        · intro j hj
          cases j with
          | zero => simpa using le_of_lt hx
          | succ j' => simpa using ihmax j' (by simpa using hj)
        · intro j hj
          cases j with
          | zero => simpa using hx
          | succ j' => simpa using ihfirst j' (by omega)
      · simp only [np_argmax, hx, if_false]
        refine ⟨by simp, ?_, ?_⟩
        · intro j hj
          cases j with
          | zero => simp
          | succ j' =>
            simp only [List.getD_cons_succ, List.getD_cons_zero]
            exact le_trans (ihmax j' (by simpa using hj)) (not_lt.mp hx)
        · intro j hj
          omega

/-- C2: for every inertia sequence, the elbow selector returns min_k + 1 when
fewer than 3 candidates were evaluated, and otherwise returns
argmax(second difference) + min_k + 2 clamped to [min_k+1, max_k], where the
argmax index is the first index attaining the maximum of the second
differences. -/
theorem C2_calculate_elbow_k :
    (∀ (inertias : List ℚ) (max_k min_k : ℕ), inertias.length < 3 →
      calculate_elbow_k inertias max_k min_k = min_k + 1) ∧
    (∀ (inertias : List ℚ) (max_k min_k : ℕ), 3 ≤ inertias.length →
      ∃ i, i < (np_diff (np_diff inertias)).length ∧
        (∀ j < (np_diff (np_diff inertias)).length,
          (np_diff (np_diff inertias)).getD j 0 ≤ (np_diff (np_diff inertias)).getD i 0) ∧
        (∀ j < i, (np_diff (np_diff inertias)).getD j 0 < (np_diff (np_diff inertias)).getD i 0) ∧
        calculate_elbow_k inertias max_k min_k =
          max (min_k + 1) (min (i + min_k + 2) max_k)) := by
  constructor
  · intro inertias max_k min_k h
    rw [calculate_elbow_k, if_pos h]
  · intro inertias max_k min_k h
    have hlen : (np_diff (np_diff inertias)).length = inertias.length - 2 := by
      simp [np_diff]
      omega
    have hne : np_diff (np_diff inertias) ≠ [] := by
      have : 0 < (np_diff (np_diff inertias)).length := by omega
      exact List.ne_nil_of_length_pos this
    obtain ⟨h1, h2, h3⟩ := np_argmax_spec _ hne
    exact ⟨np_argmax (np_diff (np_diff inertias)), h1, h2, h3, by
      rw [calculate_elbow_k, if_neg (by omega)]⟩

/-- Witness for C2: the selector applied to the concrete inertia sequence
[100, 50, 30, 25, 23] (5 candidates, k range [2, 15]). -/
theorem C2_calculate_elbow_k_witness :
    (3:ℕ) ≤ ([100, 50, 30, 25, 23] : List ℚ).length ∧
    ∃ i, i < (np_diff (np_diff ([100, 50, 30, 25, 23] : List ℚ))).length ∧
      (∀ j < (np_diff (np_diff ([100, 50, 30, 25, 23] : List ℚ))).length,
        (np_diff (np_diff ([100, 50, 30, 25, 23] : List ℚ))).getD j 0 ≤
          (np_diff (np_diff ([100, 50, 30, 25, 23] : List ℚ))).getD i 0) ∧
      (∀ j < i, (np_diff (np_diff ([100, 50, 30, 25, 23] : List ℚ))).getD j 0 <
          (np_diff (np_diff ([100, 50, 30, 25, 23] : List ℚ))).getD i 0) ∧
      calculate_elbow_k ([100, 50, 30, 25, 23] : List ℚ) 15 2 =
        max (2 + 1) (min (i + 2 + 2) 15) :=
  ⟨by decide, C2_calculate_elbow_k.2 [100, 50, 30, 25, 23] 15 2 (by decide)⟩

/- ### Real vectors as lists (numpy / sklearn model) -/

/-- Dot product of two real vectors (numpy, truncating at the shorter list). -/
def listDot (u v : List ℝ) : ℝ := (List.zipWith (fun a b => a * b) u v).sum

/-- Euclidean norm (np.linalg.norm). -/
noncomputable def l2norm (v : List ℝ) : ℝ := Real.sqrt (listDot v v)

/-- Scalar multiple of a vector. -/
def listSmul (c : ℝ) (v : List ℝ) : List ℝ := v.map (fun x => c * x)

lemma listDot_nil_right (u : List ℝ) : listDot u [] = 0 := by
  cases u <;> rfl

lemma listDot_cons (a b : ℝ) (u v : List ℝ) :
    listDot (a :: u) (b :: v) = a * b + listDot u v := rfl

lemma listDot_self_nonneg : ∀ v : List ℝ, 0 ≤ listDot v v := by
  intro v
  induction v with
  | nil => simp [listDot]
  | cons a t ih => rw [listDot_cons]; nlinarith [sq_nonneg a]

lemma listDot_self_smul (c : ℝ) : ∀ v : List ℝ, listDot (listSmul c v) (listSmul c v) =
    c ^ 2 * listDot v v := by
  intro v
  induction v with
  | nil => simp [listDot, listSmul]
  | cons a t ih =>
    show listDot (c * a :: listSmul c t) (c * a :: listSmul c t) = _
    rw [listDot_cons, ih, listDot_cons]
    ring

lemma listDot_self_eq_zero : ∀ {v : List ℝ}, listDot v v = 0 → ∀ a ∈ v, a = 0 := by
  intro v
  induction v with
  | nil => intro _ a ha; simp at ha
  | cons x t ih =>
    intro h a ha
    rw [listDot_cons] at h
    have h1 : 0 ≤ listDot t t := listDot_self_nonneg t
    have h2 : x * x = 0 := by nlinarith [sq_nonneg x]
    rcases List.mem_cons.mp ha with rfl | hm
    · nlinarith
    · exact ih (by nlinarith) a hm

lemma listDot_expand (x : ℝ) : ∀ (u v : List ℝ), u.length = v.length →
    listDot (List.zipWith (fun a b => a + x * b) u v)
        (List.zipWith (fun a b => a + x * b) u v) =
      listDot u u + 2 * x * listDot u v + x ^ 2 * listDot v v := by
  intro u
  induction u with
  | nil =>
    intro v h
    have : v = [] := List.eq_nil_of_length_eq_zero h.symm
    subst this
    simp [listDot]
  | cons a u ih =>
    intro v h
    cases v with
    | nil => simp at h
    | cons b v =>
      simp only [List.zipWith_cons_cons, listDot_cons]
      rw [ih v (by simpa using h)]
      ring

lemma listDot_self_take_le (n : ℕ) : ∀ u : List ℝ,
    listDot (u.take n) (u.take n) ≤ listDot u u := by
  induction n with
  | zero => intro u; simpa [listDot] using listDot_self_nonneg u
  | succ n ih =>
    intro u
    cases u with
    | nil => simp
    | cons a t =>
      simp only [List.take_succ_cons, listDot_cons]
      have := ih t
      linarith

lemma listDot_take_min : ∀ (u v : List ℝ),
    listDot u v = listDot (u.take (min u.length v.length)) (v.take (min u.length v.length)) := by
  intro u
  induction u with
  | nil => intro v; simp [listDot]
  | cons a t ih =>
    intro v
    cases v with
    | nil => simp [listDot]
    | cons b w =>
      simp only [List.length_cons, Nat.succ_min_succ, List.take_succ_cons, listDot_cons]
      rw [ih w]

/-- Cauchy-Schwarz for equal-length vectors, via the quadratic discriminant. -/
lemma listDot_sq_le_of_len {u v : List ℝ} (h : u.length = v.length) :
    (listDot u v) ^ 2 ≤ listDot u u * listDot v v := by
  have hq : ∀ x : ℝ, 0 ≤ (listDot v v) * (x * x) + (2 * listDot u v) * x + listDot u u := by
    intro x
    have h0 := listDot_self_nonneg (List.zipWith (fun a b => a + x * b) u v)
    have he := listDot_expand x u v h
    nlinarith [h0, he]
  have hd : discrim (listDot v v) (2 * listDot u v) (listDot u u) ≤ 0 :=
    discrim_le_zero hq
  rw [discrim] at hd
  nlinarith [hd]

/-- Cauchy-Schwarz for arbitrary real vectors (dot truncates at the shorter). -/
lemma listDot_sq_le (u v : List ℝ) :
    (listDot u v) ^ 2 ≤ listDot u u * listDot v v := by
  have h1 := listDot_take_min u v
  have h2 : (listDot (u.take (min u.length v.length)) (v.take (min u.length v.length))) ^ 2 ≤
      listDot (u.take (min u.length v.length)) (u.take (min u.length v.length)) *
        listDot (v.take (min u.length v.length)) (v.take (min u.length v.length)) := by
    apply listDot_sq_le_of_len
    simp [List.length_take]
  calc (listDot u v) ^ 2
      = (listDot (u.take (min u.length v.length)) (v.take (min u.length v.length))) ^ 2 := by
        rw [h1]
    _ ≤ _ := h2
    _ ≤ listDot u u * listDot v v := by
        apply mul_le_mul (listDot_self_take_le _ u) (listDot_self_take_le _ v)
          (listDot_self_nonneg _) (listDot_self_nonneg u)

/-- Cosine similarity of two vectors as computed by sklearn cosine_similarity
(rows are L2-normalized, zero-norm rows left as zero, then dotted). -/
noncomputable def cosineSim (u v : List ℝ) : ℝ :=
  if l2norm u = 0 ∨ l2norm v = 0 then 0 else listDot u v / (l2norm u * l2norm v)

lemma abs_listDot_le (u v : List ℝ) : |listDot u v| ≤ l2norm u * l2norm v := by
  have h := listDot_sq_le u v
  have habs : |listDot u v| = Real.sqrt ((listDot u v) ^ 2) := (Real.sqrt_sq_eq_abs _).symm
  rw [habs, l2norm, l2norm, ← Real.sqrt_mul (listDot_self_nonneg u)]
  exact Real.sqrt_le_sqrt h

lemma cosineSim_bounds (u v : List ℝ) : -1 ≤ cosineSim u v ∧ cosineSim u v ≤ 1 := by
  rw [cosineSim]
  split
  · norm_num
  · rename_i hz
    push_neg at hz
    have hu : 0 < l2norm u := (Real.sqrt_nonneg _).lt_of_ne' hz.1
    have hv : 0 < l2norm v := (Real.sqrt_nonneg _).lt_of_ne' hz.2
    have hprod : 0 < l2norm u * l2norm v := mul_pos hu hv
    have habs := abs_listDot_le u v
    constructor
    · rw [le_div_iff₀ hprod]
      nlinarith [abs_le.mp habs]
    · rw [div_le_one hprod]
      exact (abs_le.mp habs).2

/- ### Data model: one row of the course table (preprocessing.py / the CSV).
The two numeric columns added by the preprocessor are optional fields, `none`
meaning the column is absent from the caller's table. -/

structure DfRow where
  course_title : String
  course_organization : String
  course_Certificate_type : String
  course_rating : ℚ
  course_students_enrolled : Option String
  course_difficulty : String
  enrollment_numeric : Option ℚ := none
  difficulty_encoded : Option ℚ := none
deriving DecidableEq

/-- CoursePreprocessor._encode_difficulty. -/
def encode_difficulty (difficulty : String) : ℚ :=
  match String.mk (pyStrip difficulty) with
  | "Beginner" => 1
  | "Intermediate" => 2
  | "Advanced" => 3
  | "Mixed" => 5/2
  | _ => 2

/- ### pandas get_dummies -/

/-- Lexicographic comparison of character lists (Python string order). -/
def lexLe : List Char → List Char → Bool
  | [], _ => true
  | _ :: _, [] => false
  | a :: as, b :: bs => if a = b then lexLe as bs else decide (a < b)

/-- Sorted-string order used by pandas for one-hot column names. -/
def strLe (s t : String) : Prop := lexLe s.data t.data = true

instance : DecidableRel strLe := fun s t => by unfold strLe; infer_instance

/-- Distinct values of a column, sorted (pandas one-hot column order). -/
def uniqueSorted (vals : List String) : List String :=
  List.insertionSort strLe vals.dedup

/-- Column names produced by pd.get_dummies with the given name prefix. -/
def dummyCols (vals : List String) (pre : String) : List String :=
  (uniqueSorted vals).map (fun v => pre ++ v)

/-- One row of a one-hot block over the column list `cols`. -/
def dummiesRow (cols : List String) (pre value : String) : List ℝ :=
  cols.map (fun col => if pre ++ value = col then (1:ℝ) else 0)

/-- One row of the transform-time one-hot block: get_dummies over the new batch
(columns `newCols`), missing fitted columns added as 0, then reindexed to the
fitted column list (dropping columns unseen at fit time). -/
def reindexedDummiesRow (fittedCols newCols : List String) (pre value : String) : List ℝ :=
  fittedCols.map (fun col =>
    if col ∈ newCols then (if pre ++ value = col then (1:ℝ) else 0) else 0)

/- ### sklearn TfidfVectorizer (max_features=50, stop_words='english') -/

/-- Word characters of the sklearn token pattern \w (ASCII model). -/
def isWordChar (c : Char) : Bool := c.isAlphanum || c == '_'

/-- Accumulator form of run splitting: `cur` is the current (reversed) run. -/
def wordRunsAux : List Char → List Char → List (List Char)
  | cur, [] => if cur.isEmpty then [] else [cur.reverse]
  | cur, c :: cs =>
    if isWordChar c then wordRunsAux (c :: cur) cs
    else if cur.isEmpty then wordRunsAux [] cs else cur.reverse :: wordRunsAux [] cs

/-- Maximal runs of word characters (the token pattern matches maximal runs). -/
def wordRuns (l : List Char) : List (List Char) := wordRunsAux [] l

/-- sklearn tokenization: lowercase, then tokens of at least two word
characters (token pattern \b\w\w+\b). -/
def sklearnTokens (title : String) : List String :=
  ((wordRuns (title.data.map Char.toLower)).filter (fun r => 2 ≤ r.length)).map String.mk

/-- The frozen English stop-word list used by sklearn (stop_words='english').
Its exact contents never decide any claim below; it is reproduced here so the
tokenizer drops stop words the way the source's vectorizer does. -/
def english_stop_words : List String :=
  ["a", "about", "above", "across", "after", "afterwards", "again", "against",
   "all", "almost", "alone", "along", "already", "also", "although", "always",
   "am", "among", "amongst", "amoungst", "amount", "an", "and", "another",
   "any", "anyhow", "anyone", "anything", "anyway", "anywhere", "are", "around",
   "as", "at", "back", "be", "became", "because", "become", "becomes",
   "becoming", "been", "before", "beforehand", "behind", "being", "below",
   "beside", "besides", "between", "beyond", "bill", "both", "bottom", "but",
   "by", "call", "can", "cannot", "cant", "co", "con", "could", "couldnt",
   "cry", "de", "describe", "detail", "do", "done", "down", "due", "during",
   "each", "eg", "eight", "either", "eleven", "else", "elsewhere", "empty",
   "enough", "etc", "even", "ever", "every", "everyone", "everything",
   "everywhere", "except", "few", "fifteen", "fifty", "fill", "find", "fire",
   "first", "five", "for", "former", "formerly", "forty", "found", "four",
   "from", "front", "full", "further", "get", "give", "go", "had", "has",
   "hasnt", "have", "he", "hence", "her", "here", "hereafter", "hereby",
   "herein", "hereupon", "hers", "herself", "him", "himself", "his", "how",
   "however", "hundred", "i", "ie", "if", "in", "inc", "indeed", "interest",
   "into", "is", "it", "its", "itself", "keep", "last", "latter", "latterly",
   "least", "less", "ltd", "made", "many", "may", "me", "meanwhile", "might",
   "mill", "mine", "more", "moreover", "most", "mostly", "move", "much",
   "must", "my", "myself", "name", "namely", "neither", "never",
   "nevertheless", "next", "nine", "no", "nobody", "none", "noone", "nor",
   "not", "nothing", "now", "nowhere", "of", "off", "often", "on", "once",
   "one", "only", "onto", "or", "other", "others", "otherwise", "our", "ours",
   "ourselves", "out", "over", "own", "part", "per", "perhaps", "please",
   "put", "rather", "re", "same", "see", "seem", "seemed", "seeming", "seems",
   "serious", "several", "she", "should", "show", "side", "since", "sincere",
   "six", "sixty", "so", "some", "somehow", "someone", "something",
   "sometime", "sometimes", "somewhere", "still", "such", "system", "take",
   "ten", "than", "that", "the", "their", "them", "themselves", "then",
   "thence", "there", "thereafter", "thereby", "therefore", "therein",
   "thereupon", "these", "they", "thick", "thin", "third", "this", "those",
   "though", "three", "through", "throughout", "thru", "thus", "to",
   "together", "too", "top", "toward", "towards", "twelve", "twenty", "two",
   "un", "under", "until", "up", "upon", "us", "very", "via", "was", "we",
   "well", "were", "what", "whatever", "when", "whence", "whenever", "where",
   "whereafter", "whereas", "whereby", "wherein", "whereupon", "wherever",
   "whether", "which", "while", "whither", "who", "whoever", "whole", "whom",
   "whose", "why", "will", "with", "within", "without", "would", "yet", "you",
   "your", "yours", "yourself", "yourselves"]

/-- Tokens of one document after stop-word removal. -/
def docTokens (title : String) : List String :=
  (sklearnTokens title).filter (fun t => !(english_stop_words.contains t))

/-- Total number of occurrences of a term across the tokenized corpus. -/
def totalCount (docs : List (List String)) (t : String) : ℕ :=
  (docs.map (fun d => d.count t)).sum

/-- The fitted vocabulary: distinct non-stop-word tokens in sorted order; when
more than max_features=50 are present, only the 50 most frequent terms are
kept (ties to the alphabetically first), still in sorted order. -/
def buildVocab (titles : List String) : List String :=
  let docs := titles.map docTokens
  let cands := uniqueSorted docs.flatten
  if cands.length ≤ 50 then cands
  else
    let top := (List.insertionSort
      (fun a b => totalCount docs b ≤ totalCount docs a) cands).take 50
    cands.filter (fun t => top.contains t)

/-- Document frequency of a term over the fit-time titles. -/
def docFreq (titles : List String) (t : String) : ℕ :=
  (titles.filter (fun s => (docTokens s).contains t)).length

/-- Smoothed inverse document frequency (sklearn smooth_idf default):
log((1 + n) / (1 + df)) + 1. -/
noncomputable def idfVal (n dft : ℕ) : ℝ := Real.log ((1 + n : ℝ) / (1 + dft : ℝ)) + 1

/-- sklearn row normalization (norm='l2'): zero rows are left unchanged. -/
noncomputable def l2normalizeRow (v : List ℝ) : List ℝ :=
  if l2norm v = 0 then v else v.map (fun x => x / l2norm v)

/- ### The fitted preprocessor state (CoursePreprocessor attributes) -/

structure FitState where
  meanR : ℚ
  meanE : ℚ
  meanD : ℚ
  varR : ℚ
  varE : ℚ
  varD : ℚ
  org_cols : List String
  cert_cols : List String
  vocab : List String
  doc_freq : List ℕ
  n_docs : ℕ
  feature_names : List String
  is_fitted : Bool

/-- Column mean used by StandardScaler (junk 0 on an empty table, on which
sklearn raises instead). -/
def qMean (l : List ℚ) : ℚ := l.sum / l.length

/-- Population variance used by StandardScaler. -/
def qVar (l : List ℚ) : ℚ := ((l.map (fun x => (x - qMean l) ^ 2)).sum) / l.length

/-- StandardScaler scale_: sqrt of the variance, with zero replaced by 1. -/
noncomputable def scaleOf (v : ℚ) : ℝ := if v = 0 then 1 else Real.sqrt (v : ℝ)

/-- A standardized value (x - mean) / scale. -/
noncomputable def scaledVal (x mean var : ℚ) : ℝ := ((x : ℝ) - (mean : ℝ)) / scaleOf var

/-- The tf-idf block of one row, using the fitted vocabulary and statistics. -/
noncomputable def tfidfRow (st : FitState) (title : String) : List ℝ :=
  l2normalizeRow (List.zipWith
    (fun t dft => ((docTokens title).count t : ℝ) * idfVal st.n_docs dft)
    st.vocab st.doc_freq)

/-- The scaled numeric block [rating, enrollment_numeric, difficulty_encoded]
of one row. -/
noncomputable def scaledNums (st : FitState) (r : DfRow) (e : ℚ) : List ℝ :=
  [scaledVal r.course_rating st.meanR st.varR,
   scaledVal e st.meanE st.varE,
   scaledVal (encode_difficulty r.course_difficulty) st.meanD st.varD]

/-- In-place column assignment performed by both fit_transform and transform:
df['enrollment_numeric'] = ..., df['difficulty_encoded'] = ... -/
def addNumericCols (df : List DfRow) (es : List ℚ) : List DfRow :=
  List.zipWith (fun r e =>
    { r with enrollment_numeric := some e,
             difficulty_encoded := some (encode_difficulty r.course_difficulty) }) df es

/-- The fitted state produced by CoursePreprocessor.fit_transform. -/
noncomputable def fitState (df : List DfRow) (es : List ℚ) : FitState :=
  let orgCols := dummyCols (df.map (·.course_organization)) "org_"
  let certCols := dummyCols (df.map (·.course_Certificate_type)) "cert_"
  let vocab := buildVocab (df.map (·.course_title))
  let ratings := df.map (·.course_rating)
  let diffs := df.map (fun r => encode_difficulty r.course_difficulty)
  { meanR := qMean ratings, meanE := qMean es, meanD := qMean diffs,
    varR := qVar ratings, varE := qVar es, varD := qVar diffs,
    org_cols := orgCols, cert_cols := certCols,
    vocab := vocab,
    doc_freq := vocab.map (docFreq (df.map (·.course_title))),
    n_docs := df.length,
    feature_names := ["rating_scaled", "enrollment_scaled", "difficulty_scaled"] ++
      orgCols ++ certCols ++
      (List.range vocab.length).map (fun i => "title_tfidf_" ++ toString i),
    is_fitted := true }

/-- The feature matrix produced at fit time (one-hot blocks from the fit table
itself, no reindexing, as in the source's fit_transform). -/
noncomputable def fitRows (df : List DfRow) (es : List ℚ) : List (List ℝ) :=
  List.zipWith (fun r e =>
    scaledNums (fitState df es) r e ++
    dummiesRow (fitState df es).org_cols "org_" r.course_organization ++
    dummiesRow (fitState df es).cert_cols "cert_" r.course_Certificate_type ++
    tfidfRow (fitState df es) r.course_title) df es

/-- CoursePreprocessor.fit_transform.  Returns the feature matrix, the mutated
table (two added columns) and the fitted state.  Errors model the ValueError
raised by float() on malformed enrollment strings and by the vectorizer on an
empty vocabulary. -/
noncomputable def fit_transform (df : List DfRow) :
    Except String (List (List ℝ) × List DfRow × FitState) :=
  match df.mapM (fun r => normalize_enrollment r.course_students_enrolled) with
  | .error e => .error e
  | .ok es =>
    if buildVocab (df.map (·.course_title)) = [] then .error "ValueError: empty vocabulary"
    else .ok (fitRows df es, addNumericCols df es, fitState df es)

/-- The feature matrix produced by transform: one-hot blocks built from the new
batch, then reindexed to the fitted columns (zero-filling fitted columns that
are missing and dropping unseen ones). -/
noncomputable def transformRows (st : FitState) (df : List DfRow) (es : List ℚ) :
    List (List ℝ) :=
  List.zipWith (fun r e =>
    scaledNums st r e ++
    reindexedDummiesRow (st.feature_names.filter (fun c => "org_".data.isPrefixOf c.data))
      (dummyCols (df.map (·.course_organization)) "org_") "org_" r.course_organization ++
    reindexedDummiesRow (st.feature_names.filter (fun c => "cert_".data.isPrefixOf c.data))
      (dummyCols (df.map (·.course_Certificate_type)) "cert_") "cert_"
      r.course_Certificate_type ++
    tfidfRow st r.course_title) df es

/-- CoursePreprocessor.transform: applies the fitted state to a (possibly new)
table. -/
noncomputable def transform (st : FitState) (df : List DfRow) :
    Except String (List (List ℝ) × List DfRow) :=
  if st.is_fitted = false then .error "Preprocessor must be fitted before transform"
  else
    match df.mapM (fun r => normalize_enrollment r.course_students_enrolled) with
    | .error e => .error e
    | .ok es => .ok (transformRows st df es, addNumericCols df es)

/- ### Generic list lemmas used by the claims below -/

lemma mem_of_mem_zipWith {α β γ : Type} (f : α → β → γ) :
    ∀ (as : List α) (bs : List β) (x : γ), x ∈ List.zipWith f as bs →
      ∃ a b, a ∈ as ∧ b ∈ bs ∧ x = f a b := by
  intro as
  induction as with
  | nil => intro bs x hx; simp at hx
  | cons a as ih =>
    intro bs x hx
    cases bs with
    | nil => simp at hx
    | cons b bs =>
      rw [List.zipWith_cons_cons] at hx
      rcases List.mem_cons.mp hx with rfl | hm
      · exact ⟨a, b, by simp, by simp, rfl⟩
      · obtain ⟨a', b', ha, hb, rfl⟩ := ih bs x hm
        exact ⟨a', b', by simp [ha], by simp [hb], rfl⟩

lemma zipWith_congr_mem {α β γ : Type} (f g : α → β → γ) :
    ∀ (as : List α) (bs : List β), (∀ a ∈ as, ∀ b ∈ bs, f a b = g a b) →
      List.zipWith f as bs = List.zipWith g as bs := by
  intro as
  induction as with
  | nil => intro bs _; simp
  | cons a as ih =>
    intro bs h
    cases bs with
    | nil => simp
    | cons b bs =>
      rw [List.zipWith_cons_cons, List.zipWith_cons_cons, h a (by simp) b (by simp),
        ih bs (fun a' ha' b' hb' => h a' (by simp [ha']) b' (by simp [hb']))]

lemma getD_zipWith {α β γ : Type} (f : α → β → γ) :
    ∀ (as : List α) (bs : List β) (i : ℕ) (da : α) (db : β) (dc : γ),
      i < as.length → i < bs.length →
      (List.zipWith f as bs).getD i dc = f (as.getD i da) (bs.getD i db) := by
  intro as
  induction as with
  | nil => intro bs i da db dc h1 _; simp at h1
  | cons a as ih =>
    intro bs i da db dc h1 h2
    cases bs with
    | nil => simp at h2
    | cons b bs =>
      cases i with
      | zero => simp
      | succ i =>
        simp only [List.zipWith_cons_cons, List.getD_cons_succ]
        exact ih bs i da db dc (by simpa using h1) (by simpa using h2)

lemma exceptMapM_length {α β : Type} (f : α → Except String β) :
    ∀ (l : List α) (es : List β), l.mapM f = .ok es → es.length = l.length := by
  intro l
  induction l with
  | nil =>
    intro es h
    rw [List.mapM_nil] at h
    cases h
    rfl
  | cons a t ih =>
    intro es h
    rw [List.mapM_cons] at h
    cases hfa : f a with
    | error e => rw [hfa] at h; cases h
    | ok b =>
      rw [hfa] at h
      cases hft : t.mapM f with
      | error e => rw [hft] at h; cases h
      | ok bs =>
        rw [hft] at h
        cases h
        simpa using ih bs hft

lemma isPrefixOf_append (p r : List Char) : p.isPrefixOf (p ++ r) = true := by
  induction p with
  | nil => simp [List.isPrefixOf]
  | cons a as ih => simpa [List.isPrefixOf] using ih

/- ### Facts about the fitted feature schema needed for C3 -/

lemma org_col_starts (v : String) :
    "org_".data.isPrefixOf (("org_" ++ v) : String).data = true := by
  rw [String.data_append]
  exact isPrefixOf_append _ _

lemma cert_col_starts (v : String) :
    "cert_".data.isPrefixOf (("cert_" ++ v) : String).data = true := by
  rw [String.data_append]
  exact isPrefixOf_append _ _

lemma cert_col_not_org (v : String) :
    "org_".data.isPrefixOf (("cert_" ++ v) : String).data = false := by
  rw [String.data_append]; rfl

lemma org_col_not_cert (v : String) :
    "cert_".data.isPrefixOf (("org_" ++ v) : String).data = false := by
  rw [String.data_append]; rfl

lemma tfidf_col_not_org (i : ℕ) :
    "org_".data.isPrefixOf (("title_tfidf_" ++ toString i) : String).data = false := by
  rw [String.data_append]; rfl

lemma tfidf_col_not_cert (i : ℕ) :
    "cert_".data.isPrefixOf (("title_tfidf_" ++ toString i) : String).data = false := by
  rw [String.data_append]; rfl

lemma mem_uniqueSorted {v : String} {vals : List String} :
    v ∈ uniqueSorted vals ↔ v ∈ vals := by
  rw [uniqueSorted, (List.perm_insertionSort strLe vals.dedup).mem_iff, List.mem_dedup]

lemma mem_dummyCols {vals : List String} {v : String} (h : v ∈ vals) (pre : String) :
    (pre ++ v) ∈ dummyCols vals pre :=
  List.mem_map.mpr ⟨v, mem_uniqueSorted.mpr h, rfl⟩

lemma exists_of_mem_dummyCols {vals : List String} {col pre : String}
    (h : col ∈ dummyCols vals pre) : ∃ v, v ∈ vals ∧ col = pre ++ v := by
  obtain ⟨v, hv, rfl⟩ := List.mem_map.mp h
  exact ⟨v, mem_uniqueSorted.mp hv, rfl⟩

lemma reindexedDummiesRow_eq {fitted newCols : List String} (pre v : String)
    (hv : (pre ++ v) ∈ newCols) :
    reindexedDummiesRow fitted newCols pre v = dummiesRow fitted pre v := by
  rw [reindexedDummiesRow, dummiesRow]
  apply List.map_congr_left
  intro col hcol
  by_cases hc : col ∈ newCols
  · simp [hc]
  · have hne : ¬(pre ++ v = col) := fun he => hc (he ▸ hv)
    simp [hc, hne]

/-- Inversion of fit_transform: the shape of the fitted state. -/
lemma fit_transform_inv {df : List DfRow} {M0 : List (List ℝ)} {df0' : List DfRow}
    {st : FitState} (h : fit_transform df = .ok (M0, df0', st)) :
    ∃ es, df.mapM (fun r => normalize_enrollment r.course_students_enrolled) = .ok es ∧
      M0 = fitRows df es ∧ df0' = addNumericCols df es ∧ st = fitState df es := by
  cases hm : df.mapM (fun r => normalize_enrollment r.course_students_enrolled) with
  | error e =>
    simp only [fit_transform, hm] at h
    exact Except.noConfusion h
  | ok es =>
    simp only [fit_transform, hm] at h
    by_cases hv : buildVocab (df.map (·.course_title)) = []
    · simp only [if_pos hv] at h
      exact Except.noConfusion h
    · simp only [if_neg hv] at h
      injection h with h2
      injection h2 with hM h3
      injection h3 with hdf hst
      exact ⟨es, rfl, hM.symm, hdf.symm, hst.symm⟩

/-- Shape of the fitted state. -/
lemma fit_transform_state {df : List DfRow} {M0 : List (List ℝ)} {df0' : List DfRow}
    {st : FitState} (h : fit_transform df = .ok (M0, df0', st)) :
    st.is_fitted = true ∧
    st.org_cols = dummyCols (df.map (·.course_organization)) "org_" ∧
    st.cert_cols = dummyCols (df.map (·.course_Certificate_type)) "cert_" ∧
    st.vocab = buildVocab (df.map (·.course_title)) ∧
    st.doc_freq = st.vocab.map (docFreq (df.map (·.course_title))) ∧
    st.feature_names = ["rating_scaled", "enrollment_scaled", "difficulty_scaled"] ++
      st.org_cols ++ st.cert_cols ++
      (List.range st.vocab.length).map (fun i => "title_tfidf_" ++ toString i) := by
  obtain ⟨es, -, -, -, rfl⟩ := fit_transform_inv h
  exact ⟨rfl, rfl, rfl, rfl, rfl, rfl⟩

/-- Inversion of transform: the rows it produces. -/
lemma transform_inv {st : FitState} {df : List DfRow} {M : List (List ℝ)}
    {df' : List DfRow} (h : transform st df = .ok (M, df')) :
    st.is_fitted = true ∧
    ∃ es, df.mapM (fun r => normalize_enrollment r.course_students_enrolled) = .ok es ∧
      M = transformRows st df es ∧ df' = addNumericCols df es := by
  rw [transform] at h
  by_cases hf : st.is_fitted = false
  · rw [if_pos hf] at h; cases h
  · rw [if_neg hf] at h
    refine ⟨by revert hf; cases st.is_fitted <;> simp, ?_⟩
    cases hm : df.mapM (fun r => normalize_enrollment r.course_students_enrolled) with
    | error e =>
      simp only [hm] at h
      exact Except.noConfusion h
    | ok es =>
      simp only [hm] at h
      injection h with h2
      injection h2 with hM hdf
      exact ⟨es, rfl, hM.symm, hdf.symm⟩

/-- The org_ prefix filter over the fitted feature names recovers exactly the
fitted organization columns (and similarly for cert_). -/
lemma filter_feature_names {df : List DfRow} {M0 : List (List ℝ)} {df0' : List DfRow}
    {st : FitState} (h : fit_transform df = .ok (M0, df0', st)) :
    st.feature_names.filter (fun c => "org_".data.isPrefixOf c.data) = st.org_cols ∧
    st.feature_names.filter (fun c => "cert_".data.isPrefixOf c.data) = st.cert_cols := by
  obtain ⟨-, horg, hcert, -, -, hnames⟩ := fit_transform_state h
  constructor
  · rw [hnames]
    simp only [List.filter_append]
    rw [show (["rating_scaled", "enrollment_scaled", "difficulty_scaled"].filter
        (fun c => "org_".data.isPrefixOf c.data)) = [] from by rfl,
      List.filter_eq_self.mpr (fun col hcol => by
        obtain ⟨v, -, rfl⟩ := exists_of_mem_dummyCols (horg ▸ hcol)
        simpa using org_col_starts v),
      List.filter_eq_nil_iff.mpr (fun col hcol => by
        obtain ⟨v, -, rfl⟩ := exists_of_mem_dummyCols (hcert ▸ hcol)
        simp [cert_col_not_org v]),
      List.filter_eq_nil_iff.mpr (fun col hcol => by
        obtain ⟨i, -, rfl⟩ := List.mem_map.mp hcol
        simp [tfidf_col_not_org i])]
    simp
  · rw [hnames]
    simp only [List.filter_append]
    rw [show (["rating_scaled", "enrollment_scaled", "difficulty_scaled"].filter
        (fun c => "cert_".data.isPrefixOf c.data)) = [] from by rfl,
      List.filter_eq_nil_iff.mpr (fun col hcol => by
        obtain ⟨v, -, rfl⟩ := exists_of_mem_dummyCols (horg ▸ hcol)
        simp [org_col_not_cert v]),
      List.filter_eq_self.mpr (fun col hcol => by
        obtain ⟨v, -, rfl⟩ := exists_of_mem_dummyCols (hcert ▸ hcol)
        simpa using cert_col_starts v),
      List.filter_eq_nil_iff.mpr (fun col hcol => by
        obtain ⟨i, -, rfl⟩ := List.mem_map.mp hcol
        simp [tfidf_col_not_cert i])]
    simp

lemma l2normalizeRow_length (v : List ℝ) : (l2normalizeRow v).length = v.length := by
  rw [l2normalizeRow]
  split <;> simp

lemma tfidfRow_length {st : FitState} (hdf : st.doc_freq.length = st.vocab.length)
    (title : String) : (tfidfRow st title).length = st.vocab.length := by
  rw [tfidfRow, l2normalizeRow_length]
  simp [hdf]

instance : Inhabited DfRow := ⟨⟨"", "", "", 0, none, "", none, none⟩⟩

/-- C3: transform never changes the dimension count fixed at fit time: every
row of the transformed matrix has exactly len(feature_names) entries, and the
one-hot blocks are re-expressed over the fitted columns in fitted order
(unseen categories dropped, fitted categories missing from the new data
zero-filled). -/
theorem C3_transform_dimensions (df0 df : List DfRow) (M0 M : List (List ℝ))
    (df0' df' : List DfRow) (st : FitState)
    (hfit : fit_transform df0 = .ok (M0, df0', st))
    (htr : transform st df = .ok (M, df')) :
    (∀ row ∈ M, row.length = st.feature_names.length) ∧
    (∃ es, df.mapM (fun r => normalize_enrollment r.course_students_enrolled) = .ok es ∧
      M = List.zipWith (fun r e =>
        scaledNums st r e ++
        dummiesRow st.org_cols "org_" r.course_organization ++
        dummiesRow st.cert_cols "cert_" r.course_Certificate_type ++
        tfidfRow st r.course_title) df es) := by
  obtain ⟨horgf, hcertf⟩ := filter_feature_names hfit
  obtain ⟨hfitted, es, hm, hM, hdf'⟩ := transform_inv htr
  obtain ⟨-, horg, hcert, hvocab, hdfreq, hnames⟩ := fit_transform_state hfit
  have hMeq : M = List.zipWith (fun r e =>
      scaledNums st r e ++
      dummiesRow st.org_cols "org_" r.course_organization ++
      dummiesRow st.cert_cols "cert_" r.course_Certificate_type ++
      tfidfRow st r.course_title) df es := by
    rw [hM, transformRows]
    apply zipWith_congr_mem
    intro r hr e he
    rw [horgf, hcertf,
      reindexedDummiesRow_eq "org_" r.course_organization
        (mem_dummyCols (List.mem_map_of_mem _ hr) "org_"),
      reindexedDummiesRow_eq "cert_" r.course_Certificate_type
        (mem_dummyCols (List.mem_map_of_mem _ hr) "cert_")]
  refine ⟨?_, es, hm, hMeq⟩
  intro row hrow
  rw [hMeq] at hrow
  obtain ⟨r, e, hr, he, rfl⟩ := mem_of_mem_zipWith _ df es row hrow
  have hlen := @tfidfRow_length st (by rw [hdfreq]; simp) r.course_title
  rw [hnames]
  simp [scaledNums, dummiesRow, hlen]

lemma addNumericCols_spec (df : List DfRow) (es : List ℚ) (hlen : es.length = df.length) :
    (∀ r' ∈ addNumericCols df es,
      r'.enrollment_numeric.isSome ∧ r'.difficulty_encoded.isSome) ∧
    ((∃ r ∈ df, r.enrollment_numeric = none ∨ r.difficulty_encoded = none) →
      addNumericCols df es ≠ df) := by
  constructor
  · intro r' hr'
    obtain ⟨r, e, hr, he, rfl⟩ := mem_of_mem_zipWith _ df es r' hr'
    exact ⟨rfl, rfl⟩
  · rintro ⟨r, hr, hcase⟩ heq
    obtain ⟨i, hi, hri⟩ := List.mem_iff_getElem.mp hr
    have hgd : (addNumericCols df es).getD i default = df.getD i default := by rw [heq]
    rw [addNumericCols, getD_zipWith _ df es i default 0 default hi (by omega),
      List.getD_eq_getElem df default hi, hri] at hgd
    rcases hcase with hc | hc
    · have h2 := congrArg DfRow.enrollment_numeric hgd
      simp only at h2
      rw [hc] at h2
      cases h2
    · have h2 := congrArg DfRow.difficulty_encoded hgd
      simp only at h2
      rw [hc] at h2
      cases h2

/-- C10: both transform and fit_transform hand back the caller's table with two
added columns, enrollment_numeric and difficulty_encoded (pandas column
assignment mutates the input frame in place; the returned table is that same
frame): every returned row has both fields set, and whenever some input row
lacked one of them the returned table differs from the input. -/
theorem C10_in_place_mutation :
    (∀ (st : FitState) (df : List DfRow) (M : List (List ℝ)) (df' : List DfRow),
      transform st df = .ok (M, df') →
      (∀ r' ∈ df', r'.enrollment_numeric.isSome ∧ r'.difficulty_encoded.isSome) ∧
      ((∃ r ∈ df, r.enrollment_numeric = none ∨ r.difficulty_encoded = none) →
        df' ≠ df)) ∧
    (∀ (df : List DfRow) (M0 : List (List ℝ)) (df0' : List DfRow) (st : FitState),
      fit_transform df = .ok (M0, df0', st) →
      (∀ r' ∈ df0', r'.enrollment_numeric.isSome ∧ r'.difficulty_encoded.isSome) ∧
      ((∃ r ∈ df, r.enrollment_numeric = none ∨ r.difficulty_encoded = none) →
        df0' ≠ df)) := by
  constructor
  · intro st df M df' htr
    obtain ⟨-, es, hm, -, rfl⟩ := transform_inv htr
    exact addNumericCols_spec df es (exceptMapM_length _ df es hm)
  · intro df M0 df0' st hfit
    obtain ⟨es, hm, -, rfl, -⟩ := fit_transform_inv hfit
    exact addNumericCols_spec df es (exceptMapM_length _ df es hm)

/- ### recommender.py: CourseRecommender -/

/-- One row of the in-memory course table at serving time: the CSV columns plus
the numeric columns added by transform in __init__ and the predicted cluster. -/
structure CourseC where
  course_title : String
  course_organization : String
  course_Certificate_type : String
  course_rating : ℚ
  course_students_enrolled : Option String
  course_difficulty : String
  enrollment_numeric : ℚ
  difficulty_encoded : ℚ
  cluster : ℕ
deriving DecidableEq

instance : Inhabited CourseC := ⟨⟨"", "", "", 0, none, "", 0, 0, 0⟩⟩

/-- The trained KMeans model: its centroids (n_clusters = centroids.length). -/
structure KMeansModel where
  centroids : List (List ℝ)

/-- The loaded CourseRecommender state. -/
structure RecState where
  kmeans : KMeansModel
  courses : List CourseC
  feature_matrix : List (List ℝ)

/-- Squared Euclidean distance. -/
noncomputable def sqDist (u v : List ℝ) : ℝ :=
  (List.zipWith (fun a b => (a - b) ^ 2) u v).sum

/-- np.argmin / sklearn nearest-centroid: index of the first occurrence of the
minimum (0 on junk input). -/
noncomputable def argminIdxR : List ℝ → ℕ
  | [] => 0
  | [_] => 0
  | x :: y :: xs =>
    let j := argminIdxR (y :: xs)
    if (y :: xs).getD j 0 < x then j + 1 else 0

/-- KMeans.predict on a single vector: nearest centroid, first index on ties. -/
noncomputable def kmeans_predict (m : KMeansModel) (v : List ℝ) : ℕ :=
  argminIdxR (m.centroids.map (fun c => sqDist v c))

/-- Python truthiness of an optional string argument. -/
def optStrTruthy : Option String → Bool
  | none => false
  | some s => !(s == "")

/-- Python truthiness of an optional list argument. -/
def optListTruthy : Option (List String) → Bool
  | none => false
  | some l => !l.isEmpty

def isPrefixB : List Char → List Char → Bool
  | [], _ => true
  | _ :: _, [] => false
  | a :: as, b :: bs => a == b && isPrefixB as bs

def isInfixB (needle : List Char) : List Char → Bool
  | [] => needle.isEmpty
  | b :: bs => isPrefixB needle (b :: bs) || isInfixB needle bs

/-- pandas Series.str.contains with case=False on the OR-joined liked titles,
treating each title as a literal pattern: case-insensitive substring test. -/
def containsCI (hay pat : String) : Bool :=
  isInfixB (pat.data.map Char.toLower) (hay.data.map Char.toLower)

/-- A candidate row carrying its pandas index. -/
abbrev PoolRow := ℕ × CourseC

/-- The difficulty narrowing of _create_user_profile. -/
def poolAfterDifficulty (st : RecState) (diff : Option String) : List PoolRow :=
  let all := st.courses.enum
  if optStrTruthy diff then
    all.filter (fun p => p.2.course_difficulty == diff.getD "")
  else all

/-- The liked-courses narrowing: exact title membership first, then the
case-insensitive substring fallback, and no narrowing when both are empty. -/
def likedFilter (pool : List PoolRow) (liked : Option (List String)) : List PoolRow :=
  if optListTruthy liked then
    let L := liked.getD []
    let exactPool := pool.filter (fun p => L.contains p.2.course_title)
    if exactPool.isEmpty = false then exactPool
    else
      let subPool := pool.filter (fun p => L.any (fun t => containsCI p.2.course_title t))
      if subPool.isEmpty = false then subPool else pool
  else pool

/-- The preferred-organizations narrowing (applied only when non-empty). -/
def orgFilter (pool : List PoolRow) (orgs : Option (List String)) : List PoolRow :=
  if optListTruthy orgs then
    let m := pool.filter (fun p => (orgs.getD []).contains p.2.course_organization)
    if m.isEmpty = false then m else pool
  else pool

def profilePool (st : RecState) (diff : Option String)
    (liked orgs : Option (List String)) : List PoolRow :=
  orgFilter (likedFilter (poolAfterDifficulty st diff) liked) orgs

/-- pandas Series.min (junk 0 on an empty column, where pandas yields NaN). -/
def listMinQ : List ℚ → ℚ
  | [] => 0
  | x :: xs => xs.foldl min x

def listMaxQ : List ℚ → ℚ
  | [] => 0
  | x :: xs => xs.foldl max x

/-- Column sums of a row-major matrix. -/
def matColSum : List (List ℝ) → List ℝ
  | [] => []
  | [r] => r
  | r :: rs => List.zipWith (fun a b => a + b) r (matColSum rs)

/-- np.mean(axis=0). -/
noncomputable def matMean (rows : List (List ℝ)) : List ℝ :=
  (matColSum rows).map (fun x => x / (rows.length : ℝ))

/-- feature_matrix.shape[1] (width of the precomputed matrix). -/
def matrixWidth (st : RecState) : ℕ := (st.feature_matrix.headD []).length

/-- The user profile of _create_user_profile just before L2 normalization:
the (rating-bias weighted) average of the pooled feature rows, multiplied by
the 0.5 low-confidence weight when the pool came up empty; the zero vector
when there are no rows at all. -/
noncomputable def profileUnnorm (st : RecState) (diff : Option String)
    (liked orgs : Option (List String)) (rating_bias : ℚ) : List ℝ :=
  let pool := profilePool st diff liked orgs
  let pw : List PoolRow × ℝ :=
    if pool.isEmpty then (st.courses.enum, 1/2) else (pool, 1)
  let idxs := pw.1.map (fun p => p.1)
  if 0 < idxs.length then
    let feats := idxs.map (fun i => st.feature_matrix.getD i [])
    let feats2 :=
      if 0 < rating_bias then
        let ratings := pw.1.map (fun p => p.2.course_rating)
        let mn := listMinQ ratings
        let mx := listMaxQ ratings
        let ws := ratings.map (fun r =>
          (1 : ℝ) + (rating_bias : ℝ) *
            (((r : ℝ) - (mn : ℝ)) / ((mx : ℝ) - (mn : ℝ) + 1 / 1000000)))
        List.zipWith (fun w f => f.map (fun x => w * x)) ws feats
      else feats
    listSmul pw.2 (matMean feats2)
  else List.replicate (matrixWidth st) 0

/-- The final L2 normalization (skipped when the norm is not positive). -/
noncomputable def normalizeProfile (v : List ℝ) : List ℝ :=
  if 0 < l2norm v then v.map (fun x => x / l2norm v) else v

/-- CourseRecommender._create_user_profile. -/
noncomputable def create_user_profile (st : RecState) (diff : Option String)
    (liked orgs : Option (List String)) (rating_bias : ℚ) : List ℝ :=
  normalizeProfile (profileUnnorm st diff liked orgs rating_bias)

/-- The base cosine similarities of recommend (before any boost). -/
noncomputable def similarities (st : RecState) (diff : Option String)
    (liked orgs : Option (List String)) (rating_bias : ℚ) : List ℝ :=
  st.feature_matrix.map
    (fun row => cosineSim (create_user_profile st diff liked orgs rating_bias) row)

/-- The cluster predicted for the user profile. -/
noncomputable def user_cluster (st : RecState) (diff : Option String)
    (liked orgs : Option (List String)) (rating_bias : ℚ) : ℕ :=
  kmeans_predict st.kmeans (create_user_profile st diff liked orgs rating_bias)

structure ScoredRow where
  idx : ℕ
  course : CourseC
  score : ℝ

instance : Inhabited ScoredRow := ⟨⟨0, default, 0⟩⟩

/-- The scored results table of recommend: base cosine similarity, multiplied
by 1.2 for rows sharing the profile's cluster, plus the additive rating and
enrollment boosts (min-max normalized over the whole table, epsilon-guarded). -/
noncomputable def scoredRows (st : RecState) (diff : Option String)
    (liked orgs : Option (List String)) (rating_bias : ℚ) : List ScoredRow :=
  let sims := similarities st diff liked orgs rating_bias
  let uc := user_cluster st diff liked orgs rating_bias
  let rmin := listMinQ (st.courses.map (fun c => c.course_rating))
  let rmax := listMaxQ (st.courses.map (fun c => c.course_rating))
  let emin := listMinQ (st.courses.map (fun c => c.enrollment_numeric))
  let emax := listMaxQ (st.courses.map (fun c => c.enrollment_numeric))
  List.zipWith (fun (p : PoolRow) (s : ℝ) =>
    ({ idx := p.1, course := p.2,
       score := (if p.2.cluster = uc then s * (1.2 : ℝ) else s) +
         (0.05 : ℝ) * (((p.2.course_rating : ℝ) - (rmin : ℝ)) /
           ((rmax : ℝ) - (rmin : ℝ) + 1 / 1000000)) +
         (0.03 : ℝ) * (((p.2.enrollment_numeric : ℝ) - (emin : ℝ)) /
           ((emax : ℝ) - (emin : ℝ) + 1 / 1000000)) } : ScoredRow))
    st.courses.enum sims

/-- The exclusion filters of recommend (exclude_courses, then liked_courses). -/
def filterExcluded (rows : List ScoredRow) (liked exclude : Option (List String)) :
    List ScoredRow :=
  let r1 :=
    if optListTruthy exclude then
      rows.filter (fun r => !((exclude.getD []).contains r.course.course_title))
    else rows
  if optListTruthy liked then
    r1.filter (fun r => !((liked.getD []).contains r.course.course_title))
  else r1

/-- results.sort_values('similarity_score', ascending=False): pandas reverses
an ascending argsort; numpy's quicksort on short arrays (and its insertion-sort
base case) is modelled as a stable insertion sort, so the result is modelled
exactly as the reverse of a stable ascending sort. -/
noncomputable def sortScoredDesc (rows : List ScoredRow) : List ScoredRow :=
  (List.insertionSort (fun a b => a.score ≤ b.score) rows).reverse

structure Recommendation where
  course_title : String
  organization : String
  certificate_type : String
  rating : ℚ
  difficulty : String
  students_enrolled : String
  similarity_score : ℝ
  cluster : ℕ
  explanation : String

instance : Inhabited Recommendation := ⟨⟨"", "", "", 0, "", "", 0, 0, ""⟩⟩

/-- The per-row explanation built by recommend. -/
def buildExplanation (c : CourseC) (uc : ℕ) (diff : Option String)
    (orgs : Option (List String)) : String :=
  let parts :=
    (if c.cluster = uc then ["Same cluster as your preferences"] else []) ++
    (if optStrTruthy diff ∧ c.course_difficulty = diff.getD "" then
      ["Matches your " ++ diff.getD "" ++ " difficulty preference"] else []) ++
    (if optListTruthy orgs ∧ c.course_organization ∈ orgs.getD [] then
      ["From preferred organization: " ++ c.course_organization] else []) ++
    (if (9 / 2 : ℚ) ≤ c.course_rating then ["Highly rated course"] else []) ++
    (if (1000000 : ℚ) ≤ c.enrollment_numeric then ["Popular course (1M+ enrollments)"]
     else [])
  if parts.isEmpty then "Similar content and features" else String.intercalate "; " parts

/-- The output record of recommend (str() of a missing enrollment is "nan"). -/
noncomputable def formatRec (diff : Option String) (orgs : Option (List String))
    (uc : ℕ) (r : ScoredRow) : Recommendation :=
  { course_title := r.course.course_title,
    organization := r.course.course_organization,
    certificate_type := r.course.course_Certificate_type,
    rating := r.course.course_rating,
    difficulty := r.course.course_difficulty,
    students_enrolled :=
      match r.course.course_students_enrolled with
      | none => "nan"
      | some s => s,
    similarity_score := r.score,
    cluster := r.course.cluster,
    explanation := buildExplanation r.course uc diff orgs }

/-- CourseRecommender.recommend. -/
noncomputable def recommend (st : RecState) (diff : Option String)
    (liked orgs : Option (List String)) (limit : ℕ) (rating_bias : ℚ)
    (exclude : Option (List String)) : List Recommendation :=
  let uc := user_cluster st diff liked orgs rating_bias
  let ranked :=
    sortScoredDesc (filterExcluded (scoredRows st diff liked orgs rating_bias)
      liked exclude)
  (ranked.take limit).map (formatRec diff orgs uc)

/-- CourseRecommender.__init__: the serving process loads the preprocessor the
training run fitted on the course table, transforms that same table with it,
and predicts a cluster for every row; modelled by fitting and transforming the
same table. -/
noncomputable def mkRecommender (km : KMeansModel) (df : List DfRow) :
    Except String RecState :=
  match fit_transform df with
  | .error e => .error e
  | .ok (_, _, st) =>
    match transform st df with
    | .error e => .error e
    | .ok (M, df') =>
      .ok { kmeans := km,
            courses := List.zipWith (fun (r : DfRow) (cl : ℕ) =>
              ({ course_title := r.course_title,
                 course_organization := r.course_organization,
                 course_Certificate_type := r.course_Certificate_type,
                 course_rating := r.course_rating,
                 course_students_enrolled := r.course_students_enrolled,
                 course_difficulty := r.course_difficulty,
                 enrollment_numeric := r.enrollment_numeric.getD 0,
                 difficulty_encoded := r.difficulty_encoded.getD 0,
                 cluster := cl } : CourseC)) df' (M.map (kmeans_predict km)),
            feature_matrix := M }

/- ### C5: filtering invariant -/

lemma filterExcluded_title {rows : List ScoredRow} {liked exclude : Option (List String)}
    {r : ScoredRow} (h : r ∈ filterExcluded rows liked exclude) :
    r.course.course_title ∉ liked.getD [] ∧ r.course.course_title ∉ exclude.getD [] := by
  simp only [filterExcluded] at h
  have step : ∀ (rs : List ScoredRow) (opt : Option (List String)),
      r ∈ (if optListTruthy opt then
        rs.filter (fun x => !((opt.getD []).contains x.course.course_title)) else rs) →
      r.course.course_title ∉ opt.getD [] ∧ r ∈ rs := by
    intro rs opt hmem
    by_cases hl : optListTruthy opt
    · rw [if_pos hl] at hmem
      obtain ⟨hin, hpred⟩ := List.mem_filter.mp hmem
      constructor
      · simpa using hpred
      · exact hin
    · rw [if_neg hl] at hmem
      refine ⟨?_, hmem⟩
      cases opt with
      | none => simp
      | some l =>
        have : l.isEmpty := by
          by_contra hc
          exact hl (by simp [optListTruthy, hc])
        simp [List.isEmpty_iff.mp this]
  obtain ⟨hliked, h1⟩ := step _ liked h
  obtain ⟨hexcl, -⟩ := step _ exclude h1
  exact ⟨hliked, hexcl⟩

/-- C5: no title present in liked_courses or exclude_courses ever appears in
the output of recommend. -/
theorem C5_excluded_titles (st : RecState) (diff : Option String)
    (liked orgs exclude : Option (List String)) (limit : ℕ) (rating_bias : ℚ)
    (t : String) (ht : t ∈ liked.getD [] ∨ t ∈ exclude.getD []) :
    ∀ rec ∈ recommend st diff liked orgs limit rating_bias exclude,
      rec.course_title ≠ t := by
  intro rec hrec
  simp only [recommend, List.mem_map] at hrec
  obtain ⟨r, hr, rfl⟩ := hrec
  have hr2 : r ∈ sortScoredDesc
      (filterExcluded (scoredRows st diff liked orgs rating_bias) liked exclude) :=
    List.mem_of_mem_take hr
  have hr3 : r ∈ filterExcluded (scoredRows st diff liked orgs rating_bias)
      liked exclude := by
    rw [sortScoredDesc] at hr2
    exact ((List.perm_insertionSort _ _).mem_iff).mp (List.mem_reverse.mp hr2)
  obtain ⟨hL, hE⟩ := filterExcluded_title hr3
  show r.course.course_title ≠ t
  rcases ht with h | h
  · exact fun heq => hL (heq ▸ h)
  · exact fun heq => hE (heq ▸ h)

/- ### C9: cluster info route -/

inductive ApiError where
  | invalidClusterId (detail : String)
  | internalError (detail : String)
deriving DecidableEq

structure ClusterInfo where
  cluster_id : ℤ
  n_courses : ℕ
  avg_rating : ℚ
  difficulty_distribution : List (String × ℕ)
  top_organizations : List (String × ℕ)
  sample_courses : List String

/-- pandas value_counts: counts of the distinct values, most frequent first. -/
def value_counts (vals : List String) : List (String × ℕ) :=
  List.insertionSort (fun a b : String × ℕ => b.2 ≤ a.2)
    (vals.dedup.map (fun v => (v, vals.count v)))

/-- CourseRecommender.get_cluster_info: no range validation; summarizes the
rows carrying the requested cluster id (the mean of an empty cluster is junk 0
where pandas yields NaN). -/
def get_cluster_info (st : RecState) (cluster_id : ℤ) : ClusterInfo :=
  let cc := st.courses.filter (fun c => (c.cluster : ℤ) == cluster_id)
  { cluster_id := cluster_id,
    n_courses := cc.length,
    avg_rating := (cc.map (fun c => c.course_rating)).sum / cc.length,
    difficulty_distribution := value_counts (cc.map (fun c => c.course_difficulty)),
    top_organizations := (value_counts (cc.map (fun c => c.course_organization))).take 5,
    sample_courses := (cc.map (fun c => c.course_title)).take 10 }

/-- The /clusters/{cluster_id} route of app.py: rejects an out-of-range id with
an InvalidClusterId error (HTTP 400) before calling get_cluster_info. -/
def get_cluster_info_route (st : RecState) (cluster_id : ℤ) :
    Except ApiError ClusterInfo :=
  if cluster_id < 0 ∨ (st.kmeans.centroids.length : ℤ) ≤ cluster_id then
    .error (.invalidClusterId ("Invalid cluster_id. Must be between 0 and " ++
      toString ((st.kmeans.centroids.length : ℤ) - 1)))
  else .ok (get_cluster_info st cluster_id)

/-- C9: for every cluster_id outside [0, k), where k is the trained model's
cluster count, the cluster-description operation fails with an
InvalidClusterId error kind and returns no summary. -/
theorem C9_invalid_cluster_id (st : RecState) (cid : ℤ)
    (h : cid < 0 ∨ (st.kmeans.centroids.length : ℤ) ≤ cid) :
    ∃ d, get_cluster_info_route st cid = .error (.invalidClusterId d) :=
  ⟨_, by rw [get_cluster_info_route, if_pos h]⟩

/- ### C4: liked-courses fallback -/

lemma l2norm_smul_half (v : List ℝ) :
    l2norm (listSmul (1 / 2) v) = (1 / 2) * l2norm v := by
  rw [l2norm, l2norm, listDot_self_smul,
    Real.sqrt_mul (by norm_num : (0:ℝ) ≤ (1 / 2) ^ 2),
    show Real.sqrt ((1 / 2 : ℝ) ^ 2) = 1 / 2 from Real.sqrt_sq (by norm_num)]

lemma normalizeProfile_smul_half (v : List ℝ) :
    normalizeProfile (listSmul (1 / 2) v) = normalizeProfile v := by
  have hnorm := l2norm_smul_half v
  by_cases hv : 0 < l2norm v
  · have hne : l2norm v ≠ 0 := ne_of_gt hv
    rw [normalizeProfile, normalizeProfile, if_pos hv,
      if_pos (by rw [hnorm]; positivity), hnorm, listSmul, List.map_map]
    apply List.map_congr_left
    intro a _
    show (1 / 2) * a / ((1 / 2) * l2norm v) = a / l2norm v
    field_simp
  · have h0 : l2norm v = 0 := le_antisymm (not_lt.mp hv) (Real.sqrt_nonneg _)
    have hdot : listDot v v = 0 :=
      (Real.sqrt_eq_zero (listDot_self_nonneg v)).mp h0
    have hz := listDot_self_eq_zero hdot
    rw [normalizeProfile, normalizeProfile, if_neg hv,
      if_neg (by rw [hnorm, h0]; simp), listSmul,
      show v.map (fun x => (1 / 2 : ℝ) * x) = v.map id from
        List.map_congr_left (fun a ha => by rw [hz a ha]; simp),
      List.map_id]

/-- C4: when liked_courses is non-empty but contains no exact title match and
no case-insensitive partial title match in the candidate pool, the synthesized
profile equals the 0.5-down-weighted, then L2-normalized, liked_courses=None
profile — and hence (normalization absorbing the positive scalar) equals the
liked_courses=None profile outright. -/
theorem C4_liked_fallback (st : RecState) (diff : Option String)
    (orgs : Option (List String)) (bias : ℚ) (L : List String) (hne : L ≠ [])
    (hex : (poolAfterDifficulty st diff).filter
      (fun p => L.contains p.2.course_title) = [])
    (hsub : (poolAfterDifficulty st diff).filter
      (fun p => L.any (fun t => containsCI p.2.course_title t)) = []) :
    create_user_profile st diff (some L) orgs bias =
      normalizeProfile (listSmul (1 / 2) (profileUnnorm st diff none orgs bias)) ∧
    create_user_profile st diff (some L) orgs bias =
      create_user_profile st diff none orgs bias := by
  have htr : optListTruthy (some L) = true := by
    simp [optListTruthy, List.isEmpty_iff, hne]
  have hpool : likedFilter (poolAfterDifficulty st diff) (some L) =
      poolAfterDifficulty st diff := by
    simp only [likedFilter, htr, if_true, Option.getD_some, hex, hsub,
      List.isEmpty_nil]
    simp
  have hU : profileUnnorm st diff (some L) orgs bias =
      profileUnnorm st diff none orgs bias := by
    rw [profileUnnorm, profileUnnorm, profilePool, profilePool, hpool,
      show likedFilter (poolAfterDifficulty st diff) none =
        poolAfterDifficulty st diff from rfl]
  refine ⟨?_, ?_⟩
  · rw [create_user_profile, hU, normalizeProfile_smul_half]
  · rw [create_user_profile, create_user_profile, hU]

/- ### C6 (amended): bounds of the base cosine similarity -/

/-- C6 (amended): every base cosine similarity computed by recommend lies in
[-1, 1] (Cauchy-Schwarz); the spec's lower bound 0 is not valid, because the
standardized numeric features take negative values, so the profile and an item
vector can point in opposing directions (see the counterexample). -/
theorem C6_base_cosine_bounds (st : RecState) (diff : Option String)
    (liked orgs : Option (List String)) (bias : ℚ) :
    ∀ s ∈ similarities st diff liked orgs bias, -1 ≤ s ∧ s ≤ 1 := by
  intro s hs
  rw [similarities] at hs
  obtain ⟨row, -, rfl⟩ := List.mem_map.mp hs
  exact cosineSim_bounds _ row

/- ### C7 (amended): the same-cluster boost -/

lemma enum_getD {α : Type} (l : List α) (i : ℕ) (d : α) (hi : i < l.length) :
    l.enum.getD i (0, d) = (i, l.getD i d) := by
  rw [List.getD_eq_getElem _ _ (by simpa using hi), List.getElem_enum,
    List.getD_eq_getElem _ _ hi]

/-- C7 (amended): holding base similarity, rating and enrollment equal between
two rows, the row sharing the profile's cluster scores at least as high as the
row that does not — provided the shared base cosine similarity is nonnegative.
When it is negative the multiplicative 1.2 boost lowers the score instead (see
the counterexample). -/
theorem C7_cluster_boost (st : RecState) (diff : Option String)
    (liked orgs : Option (List String)) (bias : ℚ) (i j : ℕ)
    (hi : i < st.courses.length) (hj : j < st.courses.length)
    (hi2 : i < (similarities st diff liked orgs bias).length)
    (hj2 : j < (similarities st diff liked orgs bias).length)
    (hbase : (similarities st diff liked orgs bias).getD i 0 =
      (similarities st diff liked orgs bias).getD j 0)
    (hpos : 0 ≤ (similarities st diff liked orgs bias).getD i 0)
    (hrat : (st.courses.getD i default).course_rating =
      (st.courses.getD j default).course_rating)
    (henr : (st.courses.getD i default).enrollment_numeric =
      (st.courses.getD j default).enrollment_numeric)
    (hci : (st.courses.getD i default).cluster =
      user_cluster st diff liked orgs bias)
    (hcj : (st.courses.getD j default).cluster ≠
      user_cluster st diff liked orgs bias) :
    ((scoredRows st diff liked orgs bias).getD j default).score ≤
      ((scoredRows st diff liked orgs bias).getD i default).score := by
  have hie : i < st.courses.enum.length := by simpa using hi
  have hje : j < st.courses.enum.length := by simpa using hj
  rw [scoredRows, getD_zipWith _ _ _ i (0, default) 0 default hie hi2,
    getD_zipWith _ _ _ j (0, default) 0 default hje hj2,
    enum_getD _ i default hi, enum_getD _ j default hj]
  simp only [hci, hcj, if_true, if_false, hrat, henr]
  rw [← hbase]
  have key : (similarities st diff liked orgs bias).getD i 0 ≤
      (similarities st diff liked orgs bias).getD i 0 * 1.2 := by
    nlinarith [hpos]
  linarith

/- ### C8 (amended): the ranking order -/

/-- Sort key of the modelled descending sort: strictly greater score first,
ties in reverse original (pandas index) order. -/
def lexSR (x y : ScoredRow) : Prop :=
  x.score < y.score ∨ (x.score = y.score ∧ x.idx < y.idx)

lemma orderedInsert_lex {a : ScoredRow} {l : List ScoredRow}
    (hl : List.Pairwise lexSR l) (ha : ∀ b ∈ l, a.idx < b.idx) :
    List.Pairwise lexSR
      (List.orderedInsert (fun x y : ScoredRow => x.score ≤ y.score) a l) := by
  induction l with
  | nil => simp [List.orderedInsert]
  | cons b l ih =>
    rw [List.orderedInsert]
    split
    · rename_i hab
      constructor
      · intro c hc
        rcases List.mem_cons.mp hc with rfl | hcl
        · rcases lt_or_eq_of_le hab with h | h
          · exact Or.inl h
          · exact Or.inr ⟨h, ha c (by simp)⟩
        · have hbc := (List.pairwise_cons.mp hl).1 c hcl
          have hscore : a.score ≤ c.score := by
            rcases hbc with h | h
            · exact le_trans hab (le_of_lt h)
            · exact le_trans hab (le_of_eq h.1)
          rcases lt_or_eq_of_le hscore with h | h
          · exact Or.inl h
          · exact Or.inr ⟨h, ha c (by simp [hcl])⟩
      · exact hl
    · rename_i hab
      push_neg at hab
      constructor
      · intro c hc
        rcases (List.mem_orderedInsert _).mp hc with rfl | hcl
        · exact Or.inl hab
        · exact (List.pairwise_cons.mp hl).1 c hcl
      · exact ih (List.pairwise_cons.mp hl).2 (fun x hx => ha x (by simp [hx]))

lemma insertionSort_lex : ∀ {l : List ScoredRow},
    List.Pairwise (fun a b => a.idx < b.idx) l →
    List.Pairwise lexSR
      (List.insertionSort (fun x y : ScoredRow => x.score ≤ y.score) l) := by
  intro l
  induction l with
  | nil => intro _; simp [List.insertionSort]
  | cons a l ih =>
    intro h
    rw [List.insertionSort]
    apply orderedInsert_lex (ih (List.pairwise_cons.mp h).2)
    intro b hb
    exact (List.pairwise_cons.mp h).1 b
      (((List.perm_insertionSort _ l).mem_iff).mp hb)

lemma le_fst_of_mem_enumFrom {α : Type} :
    ∀ (l : List α) (n : ℕ) (q : ℕ × α), q ∈ List.enumFrom n l → n ≤ q.1 := by
  intro l
  induction l with
  | nil => intro n q hq; simp at hq
  | cons a t ih =>
    intro n q hq
    rcases List.mem_cons.mp hq with rfl | hm
    · simp
    · exact le_trans (by omega) (ih (n + 1) q hm)

lemma pairwise_fst_enumFrom {α : Type} :
    ∀ (l : List α) (n : ℕ),
      List.Pairwise (fun p q : ℕ × α => p.1 < q.1) (List.enumFrom n l) := by
  intro l
  induction l with
  | nil => intro n; simp
  | cons a t ih =>
    intro n
    refine List.Pairwise.cons ?_ (ih (n + 1))
    intro q hq
    have := le_fst_of_mem_enumFrom t (n + 1) q hq
    omega

lemma scoredRows_idx_pairwise (st : RecState) (diff : Option String)
    (liked orgs : Option (List String)) (bias : ℚ) :
    List.Pairwise (fun a b => a.idx < b.idx) (scoredRows st diff liked orgs bias) := by
  rw [scoredRows]
  have haux : ∀ (ps : List PoolRow) (bs : List ℝ)
      (f : PoolRow → ℝ → ScoredRow), (∀ p s, (f p s).idx = p.1) →
      List.Pairwise (fun p q : ℕ × CourseC => p.1 < q.1) ps →
      List.Pairwise (fun a b => a.idx < b.idx) (List.zipWith f ps bs) := by
    intro ps
    induction ps with
    | nil => intro bs f hf hp; simp
    | cons p ps ih =>
      intro bs f hf hp
      cases bs with
      | nil => simp
      | cons s bs =>
        rw [List.zipWith_cons_cons]
        refine List.Pairwise.cons ?_ (ih bs f hf (List.pairwise_cons.mp hp).2)
        intro y hy
        obtain ⟨q, t, hq, -, rfl⟩ := mem_of_mem_zipWith f ps bs y hy
        rw [hf, hf]
        exact (List.pairwise_cons.mp hp).1 q hq
  exact haux _ _ _ (fun p s => rfl) (by
    have := pairwise_fst_enumFrom st.courses 0
    simpa [List.enum] using this)

lemma filterExcluded_pairwise {R : ScoredRow → ScoredRow → Prop}
    {rows : List ScoredRow} (liked exclude : Option (List String))
    (h : List.Pairwise R rows) :
    List.Pairwise R (filterExcluded rows liked exclude) := by
  simp only [filterExcluded]
  split
  · apply List.Pairwise.filter
    split
    · exact List.Pairwise.filter _ h
    · exact h
  · split
    · exact List.Pairwise.filter _ h
    · exact h

/-- C8 (amended): the surviving rows are ordered by final score descending, the
sort is a permutation of the filtered rows, recommend truncates and formats
exactly this ordering — but rows with equal final scores appear in REVERSE
original item order, because pandas implements the descending sort as the
reversal of an ascending argsort (modelled as a stable insertion sort). -/
theorem C8_rank_order_amended (st : RecState) (diff : Option String)
    (liked orgs exclude : Option (List String)) (bias : ℚ) (limit : ℕ) :
    List.Pairwise (fun a b => b.score ≤ a.score)
      (sortScoredDesc (filterExcluded (scoredRows st diff liked orgs bias)
        liked exclude)) ∧
    List.Pairwise (fun a b => a.score = b.score → b.idx < a.idx)
      (sortScoredDesc (filterExcluded (scoredRows st diff liked orgs bias)
        liked exclude)) ∧
    (sortScoredDesc (filterExcluded (scoredRows st diff liked orgs bias)
      liked exclude)).Perm
      (filterExcluded (scoredRows st diff liked orgs bias) liked exclude) ∧
    recommend st diff liked orgs limit bias exclude =
      ((sortScoredDesc (filterExcluded (scoredRows st diff liked orgs bias)
        liked exclude)).take limit).map
        (formatRec diff orgs (user_cluster st diff liked orgs bias)) := by
  have hidx := filterExcluded_pairwise liked exclude
    (scoredRows_idx_pairwise st diff liked orgs bias)
  have hsorted := insertionSort_lex hidx
  have hrev : List.Pairwise (fun a b => lexSR b a)
      (sortScoredDesc (filterExcluded (scoredRows st diff liked orgs bias)
        liked exclude)) := by
    rw [sortScoredDesc, List.pairwise_reverse]
    exact hsorted
  refine ⟨?_, ?_, ?_, rfl⟩
  · exact hrev.imp (fun h => by
      rcases h with h | h
      · exact le_of_lt h
      · exact le_of_eq h.1)
  · exact hrev.imp (fun h heq => by
      rcases h with h | h
      · exact absurd heq.symm (ne_of_lt h)
      · exact h.2)
  · rw [sortScoredDesc]
    exact (List.reverse_perm _).trans (List.perm_insertionSort _ _)

/- ### A concrete 4-item course table, pushed through the full pipeline, for
the C6 and C7 counterexamples. -/

def exDf : List DfRow := [
  ⟨"alpha", "X", "C", 5, some "2K", "Advanced", none, none⟩,
  ⟨"alpha", "X", "C", 5, some "2K", "Advanced", none, none⟩,
  ⟨"foo", "X", "C", 3, some "0", "Beginner", none, none⟩,
  ⟨"bar", "X", "C", 3, some "0", "Beginner", none, none⟩]

lemma ne_2K : normalize_enrollment (some "2K") = .ok 2000 := by
  have h := (normalize_digits_suffix ['2'] (by decide) (by decide)).1
  rw [show String.mk (['2'] ++ ['K']) = "2K" from rfl,
    show digitsVal ['2'] = 2 from by decide] at h
  rw [h]
  norm_num

lemma ne_0 : normalize_enrollment (some "0") = .ok 0 := by
  have h := (normalize_digits_suffix ['0'] (by decide) (by decide)).2.2
  rw [show String.mk ['0'] = "0" from rfl,
    show digitsVal ['0'] = 0 from by decide] at h
  rw [h]
  norm_num

lemma ne_1K : normalize_enrollment (some "1K") = .ok 1000 := by
  have h := (normalize_digits_suffix ['1'] (by decide) (by decide)).1
  rw [show String.mk (['1'] ++ ['K']) = "1K" from rfl,
    show digitsVal ['1'] = 1 from by decide] at h
  rw [h]
  norm_num

lemma exDf_mapM :
    exDf.mapM (fun r => normalize_enrollment r.course_students_enrolled) =
      .ok [2000, 2000, 0, 0] := by
  rw [exDf]
  simp only [List.mapM_cons, List.mapM_nil, ne_2K, ne_0]
  rfl

/-- The fitted state on exDf, written out. -/
def exStF : FitState :=
  { meanR := 4, meanE := 1000, meanD := 2,
    varR := 1, varE := 1000000, varD := 1,
    org_cols := ["org_X"], cert_cols := ["cert_C"],
    vocab := ["alpha", "bar", "foo"], doc_freq := [2, 1, 1], n_docs := 4,
    feature_names := ["rating_scaled", "enrollment_scaled", "difficulty_scaled",
      "org_X", "cert_C", "title_tfidf_0", "title_tfidf_1", "title_tfidf_2"],
    is_fitted := true }

lemma exFitState : fitState exDf [2000, 2000, 0, 0] = exStF := by
  simp only [fitState]
  rw [show dummyCols (exDf.map (·.course_organization)) "org_" = ["org_X"] from by decide,
    show dummyCols (exDf.map (·.course_Certificate_type)) "cert_" = ["cert_C"] from by
      decide,
    show buildVocab (exDf.map (·.course_title)) = ["alpha", "bar", "foo"] from by decide,
    show (["alpha", "bar", "foo"] : List String).map
      (docFreq (exDf.map (·.course_title))) = [2, 1, 1] from by decide,
    show qMean (exDf.map (·.course_rating)) = 4 from by norm_num [exDf, qMean],
    show qMean [(2000 : ℚ), 2000, 0, 0] = 1000 from by norm_num [qMean],
    show qMean (exDf.map (fun r => encode_difficulty r.course_difficulty)) = 2 from by
      norm_num [exDf, qMean, show encode_difficulty "Advanced" = 3 from rfl,
        show encode_difficulty "Beginner" = 1 from rfl],
    show qVar (exDf.map (·.course_rating)) = 1 from by norm_num [exDf, qVar, qMean],
    show qVar [(2000 : ℚ), 2000, 0, 0] = 1000000 from by norm_num [qVar, qMean],
    show qVar (exDf.map (fun r => encode_difficulty r.course_difficulty)) = 1 from by
      norm_num [exDf, qVar, qMean, show encode_difficulty "Advanced" = 3 from rfl,
        show encode_difficulty "Beginner" = 1 from rfl]]
  rw [exStF]
  norm_num [exDf]
  decide

lemma idfVal_pos {n dft : ℕ} (h : dft ≤ n) : 0 < idfVal n dft := by
  rw [idfVal]
  have h1 : (1 : ℝ) ≤ (1 + n) / (1 + dft) := by
    rw [le_div_iff₀ (by positivity)]
    have : (dft : ℝ) ≤ n := Nat.cast_le.mpr h
    linarith
  have := Real.log_nonneg h1
  linarith

lemma l2norm_of_sq (v : List ℝ) (a : ℝ) (ha : 0 ≤ a) (h : listDot v v = a * a) :
    l2norm v = a := by
  rw [l2norm, h, Real.sqrt_mul_self ha]

lemma l2normalizeRow_eq (v : List ℝ) (a : ℝ) (ha : 0 < a)
    (h : listDot v v = a * a) :
    l2normalizeRow v = v.map (fun x => x / a) := by
  rw [l2normalizeRow, if_neg (by rw [l2norm_of_sq v a ha.le h]; exact ne_of_gt ha),
    l2norm_of_sq v a ha.le h]

lemma scaleOf_one : scaleOf 1 = 1 := by
  rw [scaleOf, if_neg one_ne_zero]
  norm_num [Real.sqrt_one]

lemma scaleOf_million : scaleOf 1000000 = 1000 := by
  rw [scaleOf, if_neg (by norm_num),
    show ((1000000 : ℚ) : ℝ) = 1000 ^ 2 from by norm_num]
  exact Real.sqrt_sq (by norm_num)

lemma tfidf_ex_alpha : tfidfRow exStF "alpha" = [1, 0, 0] := by
  rw [tfidfRow,
    show exStF.vocab = ["alpha", "bar", "foo"] from rfl,
    show exStF.doc_freq = [2, 1, 1] from rfl,
    show exStF.n_docs = 4 from rfl]
  simp only [List.zipWith_cons_cons, List.zipWith_nil_right]
  rw [show (docTokens "alpha").count "alpha" = 1 from by decide,
    show (docTokens "alpha").count "bar" = 0 from by decide,
    show (docTokens "alpha").count "foo" = 0 from by decide]
  push_cast
  rw [one_mul, zero_mul]
  have hpos : 0 < idfVal 4 2 := idfVal_pos (by norm_num)
  rw [l2normalizeRow_eq _ (idfVal 4 2) hpos (by simp [listDot])]
  simp [div_self (ne_of_gt hpos)]

lemma tfidf_ex_foo : tfidfRow exStF "foo" = [0, 0, 1] := by
  rw [tfidfRow,
    show exStF.vocab = ["alpha", "bar", "foo"] from rfl,
    show exStF.doc_freq = [2, 1, 1] from rfl,
    show exStF.n_docs = 4 from rfl]
  simp only [List.zipWith_cons_cons, List.zipWith_nil_right]
  rw [show (docTokens "foo").count "alpha" = 0 from by decide,
    show (docTokens "foo").count "bar" = 0 from by decide,
    show (docTokens "foo").count "foo" = 1 from by decide]
  push_cast
  rw [one_mul, zero_mul]
  have hpos : 0 < idfVal 4 1 := idfVal_pos (by norm_num)
  rw [l2normalizeRow_eq _ (idfVal 4 1) hpos (by simp [listDot])]
  simp [div_self (ne_of_gt hpos)]

lemma tfidf_ex_bar : tfidfRow exStF "bar" = [0, 1, 0] := by
  rw [tfidfRow,
    show exStF.vocab = ["alpha", "bar", "foo"] from rfl,
    show exStF.doc_freq = [2, 1, 1] from rfl,
    show exStF.n_docs = 4 from rfl]
  simp only [List.zipWith_cons_cons, List.zipWith_nil_right]
  rw [show (docTokens "bar").count "alpha" = 0 from by decide,
    show (docTokens "bar").count "bar" = 1 from by decide,
    show (docTokens "bar").count "foo" = 0 from by decide]
  push_cast
  rw [one_mul, zero_mul]
  have hpos : 0 < idfVal 4 1 := idfVal_pos (by norm_num)
  rw [l2normalizeRow_eq _ (idfVal 4 1) hpos (by simp [listDot])]
  simp [div_self (ne_of_gt hpos)]

lemma scaledNums_ex_adv :
    scaledNums exStF ⟨"alpha", "X", "C", 5, some "2K", "Advanced", none, none⟩ 2000 =
      [1, 1, 1] := by
  rw [scaledNums]
  norm_num [scaledVal, exStF, scaleOf_one, scaleOf_million,
    show encode_difficulty "Advanced" = 3 from rfl]

lemma scaledNums_ex_beg (t : String) :
    scaledNums exStF ⟨t, "X", "C", 3, some "0", "Beginner", none, none⟩ 0 =
      [-1, -1, -1] := by
  rw [scaledNums]
  norm_num [scaledVal, exStF, scaleOf_one, scaleOf_million,
    show encode_difficulty "Beginner" = 1 from rfl]

lemma dummies_ex_org : dummiesRow ["org_X"] "org_" "X" = [1] := by
  rw [dummiesRow]
  simp only [List.map_cons, List.map_nil]
  rw [if_pos (by decide)]

lemma dummies_ex_cert : dummiesRow ["cert_C"] "cert_" "C" = [1] := by
  rw [dummiesRow]
  simp only [List.map_cons, List.map_nil]
  rw [if_pos (by decide)]

/-- The feature matrix the pipeline produces on exDf. -/
noncomputable def exM : List (List ℝ) :=
  [[1, 1, 1, 1, 1, 1, 0, 0],
   [1, 1, 1, 1, 1, 1, 0, 0],
   [-1, -1, -1, 1, 1, 0, 0, 1],
   [-1, -1, -1, 1, 1, 0, 1, 0]]

lemma exFitRows : fitRows exDf [2000, 2000, 0, 0] = exM := by
  rw [fitRows, exFitState, exDf]
  simp only [List.zipWith_cons_cons, List.zipWith_nil_right,
    show exStF.org_cols = ["org_X"] from rfl,
    show exStF.cert_cols = ["cert_C"] from rfl]
  rw [exM]
  simp only [scaledNums_ex_adv, scaledNums_ex_beg, dummies_ex_org, dummies_ex_cert,
    tfidf_ex_alpha, tfidf_ex_foo, tfidf_ex_bar]
  rfl

/-- exDf after the in-place column additions. -/
def exDf' : List DfRow := [
  ⟨"alpha", "X", "C", 5, some "2K", "Advanced", some 2000, some 3⟩,
  ⟨"alpha", "X", "C", 5, some "2K", "Advanced", some 2000, some 3⟩,
  ⟨"foo", "X", "C", 3, some "0", "Beginner", some 0, some 1⟩,
  ⟨"bar", "X", "C", 3, some "0", "Beginner", some 0, some 1⟩]

lemma exAdd : addNumericCols exDf [2000, 2000, 0, 0] = exDf' := by
  rw [addNumericCols, exDf, exDf']
  rfl

lemma exFit : fit_transform exDf = .ok (exM, exDf', exStF) := by
  simp only [fit_transform, exDf_mapM]
  rw [if_neg (by
    rw [show buildVocab (exDf.map (·.course_title)) = ["alpha", "bar", "foo"] from by
      decide]
    simp)]
  rw [exFitRows, exAdd, exFitState]

lemma reind_ex_org :
    reindexedDummiesRow ["org_X"] ["org_X"] "org_" "X" = [1] := by
  rw [reindexedDummiesRow]
  simp only [List.map_cons, List.map_nil]
  rw [if_pos (by decide), if_pos (by decide)]

lemma reind_ex_cert :
    reindexedDummiesRow ["cert_C"] ["cert_C"] "cert_" "C" = [1] := by
  rw [reindexedDummiesRow]
  simp only [List.map_cons, List.map_nil]
  rw [if_pos (by decide), if_pos (by decide)]

lemma exTrRows : transformRows exStF exDf [2000, 2000, 0, 0] = exM := by
  rw [transformRows, exDf]
  rw [show exStF.feature_names.filter (fun c => "org_".data.isPrefixOf c.data) =
    ["org_X"] from by decide,
    show exStF.feature_names.filter (fun c => "cert_".data.isPrefixOf c.data) =
    ["cert_C"] from by decide]
  simp only [List.zipWith_cons_cons, List.zipWith_nil_right]
  rw [show dummyCols (List.map (fun x => x.course_organization)
      ([⟨"alpha", "X", "C", 5, some "2K", "Advanced", none, none⟩,
        ⟨"alpha", "X", "C", 5, some "2K", "Advanced", none, none⟩,
        ⟨"foo", "X", "C", 3, some "0", "Beginner", none, none⟩,
        ⟨"bar", "X", "C", 3, some "0", "Beginner", none, none⟩] : List DfRow)) "org_" =
      ["org_X"] from by decide,
    show dummyCols (List.map (fun x => x.course_Certificate_type)
      ([⟨"alpha", "X", "C", 5, some "2K", "Advanced", none, none⟩,
        ⟨"alpha", "X", "C", 5, some "2K", "Advanced", none, none⟩,
        ⟨"foo", "X", "C", 3, some "0", "Beginner", none, none⟩,
        ⟨"bar", "X", "C", 3, some "0", "Beginner", none, none⟩] : List DfRow)) "cert_" =
      ["cert_C"] from by decide]
  rw [exM]
  simp only [scaledNums_ex_adv, scaledNums_ex_beg, reind_ex_org, reind_ex_cert,
    tfidf_ex_alpha, tfidf_ex_foo, tfidf_ex_bar]
  rfl

lemma exTr : transform exStF exDf = .ok (exM, exDf') := by
  rw [transform, if_neg (by rw [show exStF.is_fitted = true from rfl]; simp)]
  simp only [exDf_mapM]
  rw [exTrRows, exAdd]

/-- The trained model used in the counterexamples: two centroids, equal to the
feature vectors of items 2 and 3. -/
noncomputable def exKm : KMeansModel :=
  ⟨[[-1, -1, -1, 1, 1, 0, 0, 1], [-1, -1, -1, 1, 1, 0, 1, 0]]⟩

/-- The serving-time course table of the counterexample state. -/
def exCourses : List CourseC := [
  ⟨"alpha", "X", "C", 5, some "2K", "Advanced", 2000, 3, 0⟩,
  ⟨"alpha", "X", "C", 5, some "2K", "Advanced", 2000, 3, 0⟩,
  ⟨"foo", "X", "C", 3, some "0", "Beginner", 0, 1, 0⟩,
  ⟨"bar", "X", "C", 3, some "0", "Beginner", 0, 1, 1⟩]

noncomputable def exSt : RecState :=
  { kmeans := exKm, courses := exCourses, feature_matrix := exM }

lemma argmin2_ge (x y : ℝ) (h : ¬ y < x) : argminIdxR [x, y] = 0 := by
  simp only [argminIdxR, List.getD_cons_zero]
  exact if_neg h

lemma argmin2_lt (x y : ℝ) (h : y < x) : argminIdxR [x, y] = 1 := by
  simp only [argminIdxR, List.getD_cons_zero]
  exact if_pos h

lemma predict_ex_row01 : kmeans_predict exKm [1, 1, 1, 1, 1, 1, 0, 0] = 0 := by
  rw [kmeans_predict, exKm]
  simp only [List.map_cons, List.map_nil]
  rw [show sqDist [(1:ℝ), 1, 1, 1, 1, 1, 0, 0] [-1, -1, -1, 1, 1, 0, 0, 1] = 14 from by
      norm_num [sqDist],
    show sqDist [(1:ℝ), 1, 1, 1, 1, 1, 0, 0] [-1, -1, -1, 1, 1, 0, 1, 0] = 14 from by
      norm_num [sqDist]]
  exact argmin2_ge 14 14 (by norm_num)

lemma predict_ex_row2 : kmeans_predict exKm [-1, -1, -1, 1, 1, 0, 0, 1] = 0 := by
  rw [kmeans_predict, exKm]
  simp only [List.map_cons, List.map_nil]
  rw [show sqDist [(-1:ℝ), -1, -1, 1, 1, 0, 0, 1] [-1, -1, -1, 1, 1, 0, 0, 1] = 0 from by
      norm_num [sqDist],
    show sqDist [(-1:ℝ), -1, -1, 1, 1, 0, 0, 1] [-1, -1, -1, 1, 1, 0, 1, 0] = 2 from by
      norm_num [sqDist]]
  exact argmin2_ge 0 2 (by norm_num)

lemma predict_ex_row3 : kmeans_predict exKm [-1, -1, -1, 1, 1, 0, 1, 0] = 1 := by
  rw [kmeans_predict, exKm]
  simp only [List.map_cons, List.map_nil]
  rw [show sqDist [(-1:ℝ), -1, -1, 1, 1, 0, 1, 0] [-1, -1, -1, 1, 1, 0, 0, 1] = 2 from by
      norm_num [sqDist],
    show sqDist [(-1:ℝ), -1, -1, 1, 1, 0, 1, 0] [-1, -1, -1, 1, 1, 0, 1, 0] = 0 from by
      norm_num [sqDist]]
  exact argmin2_lt 2 0 (by norm_num)

lemma exM_clusters : exM.map (kmeans_predict exKm) = [0, 0, 0, 1] := by
  rw [exM]
  simp only [List.map_cons, List.map_nil]
  rw [predict_ex_row01, predict_ex_row2, predict_ex_row3]

/-- The counterexample state is the one __init__ builds from exDf and exKm. -/
lemma exMk : mkRecommender exKm exDf = .ok exSt := by
  simp only [mkRecommender, exFit, exTr]
  rw [exM_clusters, exDf']
  rfl

/-- The profile synthesized on exSt for difficulty "Advanced". -/
noncomputable def exP : List ℝ :=
  [1 / Real.sqrt 6, 1 / Real.sqrt 6, 1 / Real.sqrt 6, 1 / Real.sqrt 6,
   1 / Real.sqrt 6, 1 / Real.sqrt 6, 0, 0]

lemma ex_unnorm : profileUnnorm exSt (some "Advanced") none none (1 / 10) =
    [1, 1, 1, 1, 1, 1, 0, 0] := by
  have hpool : profilePool exSt (some "Advanced") none none =
      [(0, ⟨"alpha", "X", "C", 5, some "2K", "Advanced", 2000, 3, 0⟩),
       (1, ⟨"alpha", "X", "C", 5, some "2K", "Advanced", 2000, 3, 0⟩)] := by decide
  simp only [profileUnnorm, hpool]
  norm_num [exSt, exM, exKm, exCourses, listMinQ, matMean, matColSum, listSmul,
    List.getD_cons_zero, List.getD_cons_succ]

lemma sqrt6_pos : (0 : ℝ) < Real.sqrt 6 := Real.sqrt_pos.mpr (by norm_num)

lemma sqrt6_mul_self : Real.sqrt 6 * Real.sqrt 6 = 6 :=
  Real.mul_self_sqrt (by norm_num)

lemma ex_profile : create_user_profile exSt (some "Advanced") none none (1 / 10) =
    exP := by
  rw [create_user_profile, ex_unnorm, normalizeProfile,
    if_pos (by
      rw [l2norm, show listDot [(1:ℝ), 1, 1, 1, 1, 1, 0, 0]
        [(1:ℝ), 1, 1, 1, 1, 1, 0, 0] = 6 from by norm_num [listDot]]
      exact sqrt6_pos),
    l2norm, show listDot [(1:ℝ), 1, 1, 1, 1, 1, 0, 0]
      [(1:ℝ), 1, 1, 1, 1, 1, 0, 0] = 6 from by norm_num [listDot], exP]
  norm_num

lemma l2norm_exP : l2norm exP = 1 := by
  have hne : Real.sqrt 6 ≠ 0 := ne_of_gt sqrt6_pos
  rw [l2norm, show listDot exP exP = 1 from by
    rw [exP]
    simp only [listDot, List.zipWith_cons_cons, List.zipWith_nil_right,
      List.sum_cons, List.sum_nil]
    field_simp
    norm_num]
  exact Real.sqrt_one

lemma l2norm_exV2 : l2norm [(-1:ℝ), -1, -1, 1, 1, 0, 0, 1] = Real.sqrt 6 := by
  rw [l2norm, show listDot [(-1:ℝ), -1, -1, 1, 1, 0, 0, 1]
    [(-1:ℝ), -1, -1, 1, 1, 0, 0, 1] = 6 from by norm_num [listDot]]

lemma l2norm_exV3 : l2norm [(-1:ℝ), -1, -1, 1, 1, 0, 1, 0] = Real.sqrt 6 := by
  rw [l2norm, show listDot [(-1:ℝ), -1, -1, 1, 1, 0, 1, 0]
    [(-1:ℝ), -1, -1, 1, 1, 0, 1, 0] = 6 from by norm_num [listDot]]

lemma l2norm_exV0 : l2norm [(1:ℝ), 1, 1, 1, 1, 1, 0, 0] = Real.sqrt 6 := by
  rw [l2norm, show listDot [(1:ℝ), 1, 1, 1, 1, 1, 0, 0]
    [(1:ℝ), 1, 1, 1, 1, 1, 0, 0] = 6 from by norm_num [listDot]]

lemma cos_exP_v0 : cosineSim exP [(1:ℝ), 1, 1, 1, 1, 1, 0, 0] = 1 := by
  have hne : Real.sqrt 6 ≠ 0 := ne_of_gt sqrt6_pos
  rw [cosineSim, if_neg (by
    rw [l2norm_exP, l2norm_exV0]
    push_neg
    exact ⟨one_ne_zero, hne⟩)]
  rw [l2norm_exP, l2norm_exV0,
    show listDot exP [(1:ℝ), 1, 1, 1, 1, 1, 0, 0] = 6 / Real.sqrt 6 from by
      rw [exP]
      simp only [listDot, List.zipWith_cons_cons, List.zipWith_nil_right,
        List.sum_cons, List.sum_nil]
      field_simp
      ring]
  rw [one_mul, div_div, sqrt6_mul_self]
  norm_num

lemma cos_exP_v2 : cosineSim exP [(-1:ℝ), -1, -1, 1, 1, 0, 0, 1] = -(1 / 6) := by
  have hne : Real.sqrt 6 ≠ 0 := ne_of_gt sqrt6_pos
  rw [cosineSim, if_neg (by
    rw [l2norm_exP, l2norm_exV2]
    push_neg
    exact ⟨one_ne_zero, hne⟩)]
  rw [l2norm_exP, l2norm_exV2,
    show listDot exP [(-1:ℝ), -1, -1, 1, 1, 0, 0, 1] = -(1 / Real.sqrt 6) from by
      rw [exP]
      simp only [listDot, List.zipWith_cons_cons, List.zipWith_nil_right,
        List.sum_cons, List.sum_nil]
      field_simp]
  rw [one_mul, neg_div, div_div, sqrt6_mul_self]

lemma cos_exP_v3 : cosineSim exP [(-1:ℝ), -1, -1, 1, 1, 0, 1, 0] = -(1 / 6) := by
  have hne : Real.sqrt 6 ≠ 0 := ne_of_gt sqrt6_pos
  rw [cosineSim, if_neg (by
    rw [l2norm_exP, l2norm_exV3]
    push_neg
    exact ⟨one_ne_zero, hne⟩)]
  rw [l2norm_exP, l2norm_exV3,
    show listDot exP [(-1:ℝ), -1, -1, 1, 1, 0, 1, 0] = -(1 / Real.sqrt 6) from by
      rw [exP]
      simp only [listDot, List.zipWith_cons_cons, List.zipWith_nil_right,
        List.sum_cons, List.sum_nil]
      field_simp]
  rw [one_mul, neg_div, div_div, sqrt6_mul_self]

lemma ex_sims : similarities exSt (some "Advanced") none none (1 / 10) =
    [1, 1, -(1 / 6), -(1 / 6)] := by
  rw [similarities, ex_profile, show exSt.feature_matrix = exM from rfl, exM]
  simp only [List.map_cons, List.map_nil]
  rw [cos_exP_v0, cos_exP_v2, cos_exP_v3]

lemma ex_uc : user_cluster exSt (some "Advanced") none none (1 / 10) = 0 := by
  rw [user_cluster, ex_profile, kmeans_predict, show exSt.kmeans = exKm from rfl, exKm]
  simp only [List.map_cons, List.map_nil]
  have hd : sqDist exP [-1, -1, -1, 1, 1, 0, 1, 0] =
      sqDist exP [-1, -1, -1, 1, 1, 0, 0, 1] := by
    rw [exP]
    simp only [sqDist, List.zipWith_cons_cons, List.zipWith_nil_right,
      List.sum_cons, List.sum_nil]
    ring
  rw [hd]
  exact argmin2_ge _ _ (lt_irrefl _)

lemma ex_scored_23 :
    ((scoredRows exSt (some "Advanced") none none (1 / 10)).getD 2 default).score =
      -(1 / 5) ∧
    ((scoredRows exSt (some "Advanced") none none (1 / 10)).getD 3 default).score =
      -(1 / 6) := by
  simp only [scoredRows, ex_sims, ex_uc, show exSt.courses = exCourses from rfl,
    exCourses]
  norm_num [List.enum, List.enumFrom, listMinQ, listMaxQ,
    List.zipWith_cons_cons, List.getD_cons_zero, List.getD_cons_succ]

/-- C6 counterexample: on the state __init__ builds from the 4-item table exDf
and the model exKm, the request {difficulty: "Advanced"} synthesizes an
L2-normalized profile whose base cosine similarity against item 2's feature
vector (a vector of the precomputed matrix) is -1/6 < 0, refuting the claimed
lower bound 0. -/
theorem C6_base_cosine_counterexample :
    mkRecommender exKm exDf = Except.ok exSt ∧
    (similarities exSt (some "Advanced") none none (1 / 10)).getD 2 0 < 0 := by
  refine ⟨exMk, ?_⟩
  rw [ex_sims]
  norm_num

/-- C7 counterexample: on the same reachable state, items 2 and 3 agree on the
base similarity (-1/6), rating and enrollment; item 2 is in the profile's
cluster and item 3 is not, yet item 2's final score (-1/5) is strictly LOWER
than item 3's (-1/6): the 1.2 boost hurts when the base similarity is
negative, refuting the claimed score inequality. -/
theorem C7_cluster_boost_counterexample :
    mkRecommender exKm exDf = Except.ok exSt ∧
    (similarities exSt (some "Advanced") none none (1 / 10)).getD 2 0 =
      (similarities exSt (some "Advanced") none none (1 / 10)).getD 3 0 ∧
    (exSt.courses.getD 2 default).course_rating =
      (exSt.courses.getD 3 default).course_rating ∧
    (exSt.courses.getD 2 default).enrollment_numeric =
      (exSt.courses.getD 3 default).enrollment_numeric ∧
    (exSt.courses.getD 2 default).cluster =
      user_cluster exSt (some "Advanced") none none (1 / 10) ∧
    (exSt.courses.getD 3 default).cluster ≠
      user_cluster exSt (some "Advanced") none none (1 / 10) ∧
    ((scoredRows exSt (some "Advanced") none none (1 / 10)).getD 2 default).score <
      ((scoredRows exSt (some "Advanced") none none (1 / 10)).getD 3 default).score := by
  refine ⟨exMk, by rw [ex_sims]; simp, by decide, by decide, ?_, ?_, ?_⟩
  · rw [ex_uc]
    decide
  · rw [ex_uc]
    decide
  · rw [ex_scored_23.1, ex_scored_23.2]
    norm_num

/- ### A concrete 2-item course table with tied final scores, for the C8
counterexample. -/

def exDf8 : List DfRow := [
  ⟨"alpha", "X", "C", 4, some "1K", "Beginner", none, none⟩,
  ⟨"beta", "X", "C", 4, some "1K", "Beginner", none, none⟩]

lemma exDf8_mapM :
    exDf8.mapM (fun r => normalize_enrollment r.course_students_enrolled) =
      .ok [1000, 1000] := by
  rw [exDf8]
  simp only [List.mapM_cons, List.mapM_nil, ne_1K]
  rfl

def exStF8 : FitState :=
  { meanR := 4, meanE := 1000, meanD := 1,
    varR := 0, varE := 0, varD := 0,
    org_cols := ["org_X"], cert_cols := ["cert_C"],
    vocab := ["alpha", "beta"], doc_freq := [1, 1], n_docs := 2,
    feature_names := ["rating_scaled", "enrollment_scaled", "difficulty_scaled",
      "org_X", "cert_C", "title_tfidf_0", "title_tfidf_1"],
    is_fitted := true }

lemma exFitState8 : fitState exDf8 [1000, 1000] = exStF8 := by
  simp only [fitState]
  rw [show dummyCols (exDf8.map (·.course_organization)) "org_" = ["org_X"] from by
      decide,
    show dummyCols (exDf8.map (·.course_Certificate_type)) "cert_" = ["cert_C"] from by
      decide,
    show buildVocab (exDf8.map (·.course_title)) = ["alpha", "beta"] from by decide,
    show (["alpha", "beta"] : List String).map
      (docFreq (exDf8.map (·.course_title))) = [1, 1] from by decide,
    show qMean (exDf8.map (·.course_rating)) = 4 from by norm_num [exDf8, qMean],
    show qMean [(1000 : ℚ), 1000] = 1000 from by norm_num [qMean],
    show qMean (exDf8.map (fun r => encode_difficulty r.course_difficulty)) = 1 from by
      norm_num [exDf8, qMean, show encode_difficulty "Beginner" = 1 from rfl],
    show qVar (exDf8.map (·.course_rating)) = 0 from by norm_num [exDf8, qVar, qMean],
    show qVar [(1000 : ℚ), 1000] = 0 from by norm_num [qVar, qMean],
    show qVar (exDf8.map (fun r => encode_difficulty r.course_difficulty)) = 0 from by
      norm_num [exDf8, qVar, qMean, show encode_difficulty "Beginner" = 1 from rfl]]
  rw [exStF8]
  norm_num [exDf8]
  decide

lemma scaleOf_zero : scaleOf 0 = 1 := if_pos rfl

lemma scaledNums_ex8 (t : String) :
    scaledNums exStF8 ⟨t, "X", "C", 4, some "1K", "Beginner", none, none⟩ 1000 =
      [0, 0, 0] := by
  rw [scaledNums]
  norm_num [scaledVal, exStF8, scaleOf_zero,
    show encode_difficulty "Beginner" = 1 from rfl]

lemma tfidf_ex8_alpha : tfidfRow exStF8 "alpha" = [1, 0] := by
  rw [tfidfRow,
    show exStF8.vocab = ["alpha", "beta"] from rfl,
    show exStF8.doc_freq = [1, 1] from rfl,
    show exStF8.n_docs = 2 from rfl]
  simp only [List.zipWith_cons_cons, List.zipWith_nil_right]
  rw [show (docTokens "alpha").count "alpha" = 1 from by decide,
    show (docTokens "alpha").count "beta" = 0 from by decide]
  push_cast
  rw [one_mul, zero_mul]
  have hpos : 0 < idfVal 2 1 := idfVal_pos (by norm_num)
  rw [l2normalizeRow_eq _ (idfVal 2 1) hpos (by simp [listDot])]
  simp [div_self (ne_of_gt hpos)]

lemma tfidf_ex8_beta : tfidfRow exStF8 "beta" = [0, 1] := by
  rw [tfidfRow,
    show exStF8.vocab = ["alpha", "beta"] from rfl,
    show exStF8.doc_freq = [1, 1] from rfl,
    show exStF8.n_docs = 2 from rfl]
  simp only [List.zipWith_cons_cons, List.zipWith_nil_right]
  rw [show (docTokens "beta").count "alpha" = 0 from by decide,
    show (docTokens "beta").count "beta" = 1 from by decide]
  push_cast
  rw [one_mul, zero_mul]
  have hpos : 0 < idfVal 2 1 := idfVal_pos (by norm_num)
  rw [l2normalizeRow_eq _ (idfVal 2 1) hpos (by simp [listDot])]
  simp [div_self (ne_of_gt hpos)]

noncomputable def exM8 : List (List ℝ) :=
  [[0, 0, 0, 1, 1, 1, 0], [0, 0, 0, 1, 1, 0, 1]]

lemma exFitRows8 : fitRows exDf8 [1000, 1000] = exM8 := by
  rw [fitRows, exFitState8, exDf8]
  simp only [List.zipWith_cons_cons, List.zipWith_nil_right,
    show exStF8.org_cols = ["org_X"] from rfl,
    show exStF8.cert_cols = ["cert_C"] from rfl]
  rw [exM8]
  simp only [scaledNums_ex8, dummies_ex_org, dummies_ex_cert, tfidf_ex8_alpha,
    tfidf_ex8_beta]
  rfl

def exDf8' : List DfRow := [
  ⟨"alpha", "X", "C", 4, some "1K", "Beginner", some 1000, some 1⟩,
  ⟨"beta", "X", "C", 4, some "1K", "Beginner", some 1000, some 1⟩]

lemma exAdd8 : addNumericCols exDf8 [1000, 1000] = exDf8' := by
  rw [addNumericCols, exDf8, exDf8']
  rfl

lemma exFit8 : fit_transform exDf8 = .ok (exM8, exDf8', exStF8) := by
  simp only [fit_transform, exDf8_mapM]
  rw [if_neg (by
    rw [show buildVocab (exDf8.map (·.course_title)) = ["alpha", "beta"] from by decide]
    simp)]
  rw [exFitRows8, exAdd8, exFitState8]

lemma exTrRows8 : transformRows exStF8 exDf8 [1000, 1000] = exM8 := by
  rw [transformRows, exDf8]
  rw [show exStF8.feature_names.filter (fun c => "org_".data.isPrefixOf c.data) =
    ["org_X"] from by decide,
    show exStF8.feature_names.filter (fun c => "cert_".data.isPrefixOf c.data) =
    ["cert_C"] from by decide]
  simp only [List.zipWith_cons_cons, List.zipWith_nil_right]
  rw [show dummyCols (List.map (fun x => x.course_organization)
      ([⟨"alpha", "X", "C", 4, some "1K", "Beginner", none, none⟩,
        ⟨"beta", "X", "C", 4, some "1K", "Beginner", none, none⟩] : List DfRow)) "org_" =
      ["org_X"] from by decide,
    show dummyCols (List.map (fun x => x.course_Certificate_type)
      ([⟨"alpha", "X", "C", 4, some "1K", "Beginner", none, none⟩,
        ⟨"beta", "X", "C", 4, some "1K", "Beginner", none, none⟩] : List DfRow)) "cert_" =
      ["cert_C"] from by decide]
  rw [exM8]
  simp only [scaledNums_ex8, reind_ex_org, reind_ex_cert, tfidf_ex8_alpha,
    tfidf_ex8_beta]
  rfl

lemma exTr8 : transform exStF8 exDf8 = .ok (exM8, exDf8') := by
  rw [transform, if_neg (by rw [show exStF8.is_fitted = true from rfl]; simp)]
  simp only [exDf8_mapM]
  rw [exTrRows8, exAdd8]

noncomputable def exKm8 : KMeansModel := ⟨[[0, 0, 0, 0, 0, 0, 0]]⟩

def exCourses8 : List CourseC := [
  ⟨"alpha", "X", "C", 4, some "1K", "Beginner", 1000, 1, 0⟩,
  ⟨"beta", "X", "C", 4, some "1K", "Beginner", 1000, 1, 0⟩]

noncomputable def exSt8 : RecState :=
  { kmeans := exKm8, courses := exCourses8, feature_matrix := exM8 }

lemma exM8_clusters : exM8.map (kmeans_predict exKm8) = [0, 0] := by
  rw [exM8]
  simp only [List.map_cons, List.map_nil]
  rw [show kmeans_predict exKm8 [(0:ℝ), 0, 0, 1, 1, 1, 0] = 0 from by
      rw [kmeans_predict, exKm8]; rfl,
    show kmeans_predict exKm8 [(0:ℝ), 0, 0, 1, 1, 0, 1] = 0 from by
      rw [kmeans_predict, exKm8]; rfl]

lemma exMk8 : mkRecommender exKm8 exDf8 = .ok exSt8 := by
  simp only [mkRecommender, exFit8, exTr8]
  rw [exM8_clusters, exDf8']
  rfl

noncomputable def exP8 : List ℝ :=
  [0, 0, 0, 1 / Real.sqrt (5 / 2), 1 / Real.sqrt (5 / 2),
   1 / 2 / Real.sqrt (5 / 2), 1 / 2 / Real.sqrt (5 / 2)]

lemma sqrt52_pos : (0 : ℝ) < Real.sqrt (5 / 2) := Real.sqrt_pos.mpr (by norm_num)

lemma ex8_unnorm : profileUnnorm exSt8 none none none (1 / 10) =
    [0, 0, 0, 1, 1, 1 / 2, 1 / 2] := by
  have hpool : profilePool exSt8 none none none =
      [(0, ⟨"alpha", "X", "C", 4, some "1K", "Beginner", 1000, 1, 0⟩),
       (1, ⟨"beta", "X", "C", 4, some "1K", "Beginner", 1000, 1, 0⟩)] := by decide
  simp only [profileUnnorm, hpool]
  norm_num [exSt8, exM8, exKm8, exCourses8, listMinQ, matMean, matColSum, listSmul,
    List.getD_cons_zero, List.getD_cons_succ]

lemma ex8_profile : create_user_profile exSt8 none none none (1 / 10) = exP8 := by
  have hdot : listDot [(0:ℝ), 0, 0, 1, 1, 1 / 2, 1 / 2]
      [(0:ℝ), 0, 0, 1, 1, 1 / 2, 1 / 2] = 5 / 2 := by norm_num [listDot]
  rw [create_user_profile, ex8_unnorm, normalizeProfile,
    if_pos (by rw [l2norm, hdot]; exact sqrt52_pos), l2norm, hdot, exP8]
  norm_num

lemma ex8_cos_eq : cosineSim exP8 [(0:ℝ), 0, 0, 1, 1, 1, 0] =
    cosineSim exP8 [(0:ℝ), 0, 0, 1, 1, 0, 1] := by
  rw [cosineSim, cosineSim,
    show l2norm [(0:ℝ), 0, 0, 1, 1, 1, 0] = Real.sqrt 3 from by
      rw [l2norm, show listDot [(0:ℝ), 0, 0, 1, 1, 1, 0]
        [(0:ℝ), 0, 0, 1, 1, 1, 0] = 3 from by norm_num [listDot]],
    show l2norm [(0:ℝ), 0, 0, 1, 1, 0, 1] = Real.sqrt 3 from by
      rw [l2norm, show listDot [(0:ℝ), 0, 0, 1, 1, 0, 1]
        [(0:ℝ), 0, 0, 1, 1, 0, 1] = 3 from by norm_num [listDot]],
    show listDot exP8 [(0:ℝ), 0, 0, 1, 1, 1, 0] =
      listDot exP8 [(0:ℝ), 0, 0, 1, 1, 0, 1] from by
      rw [exP8]
      simp only [listDot, List.zipWith_cons_cons, List.zipWith_nil_right,
        List.sum_cons, List.sum_nil]
      ring]

lemma ex8_uc : user_cluster exSt8 none none none (1 / 10) = 0 := by
  rw [user_cluster, kmeans_predict, show exSt8.kmeans = exKm8 from rfl, exKm8]
  rfl

lemma ex8_sims : similarities exSt8 none none none (1 / 10) =
    [cosineSim exP8 [0, 0, 0, 1, 1, 1, 0], cosineSim exP8 [0, 0, 0, 1, 1, 0, 1]] := by
  rw [similarities, ex8_profile, show exSt8.feature_matrix = exM8 from rfl, exM8]
  simp only [List.map_cons, List.map_nil]

lemma ex8_scored_eq : scoredRows exSt8 none none none (1 / 10) =
    [⟨0, ⟨"alpha", "X", "C", 4, some "1K", "Beginner", 1000, 1, 0⟩,
      cosineSim exP8 [0, 0, 0, 1, 1, 1, 0] * 1.2⟩,
     ⟨1, ⟨"beta", "X", "C", 4, some "1K", "Beginner", 1000, 1, 0⟩,
      cosineSim exP8 [0, 0, 0, 1, 1, 1, 0] * 1.2⟩] := by
  simp only [scoredRows, ex8_sims, ex8_uc, show exSt8.courses = exCourses8 from rfl,
    exCourses8]
  rw [← ex8_cos_eq]
  norm_num [List.enum, List.enumFrom, listMinQ, listMaxQ,
    List.zipWith_cons_cons]

lemma filterExcluded_none_none (rows : List ScoredRow) :
    filterExcluded rows none none = rows := rfl

lemma sortScoredDesc_pair (r0 r1 : ScoredRow) (h : r0.score ≤ r1.score) :
    sortScoredDesc [r0, r1] = [r1, r0] := by
  rw [sortScoredDesc]
  show (List.orderedInsert _ r0 (List.orderedInsert _ r1 [])).reverse = _
  rw [List.orderedInsert, List.orderedInsert, if_pos h]
  rfl

/-- C8 counterexample: on the state __init__ builds from the 2-item table exDf8
(items "alpha" then "beta", identical in every scoring signal) the two final
scores are equal, yet recommend returns ["beta", "alpha"] — the reverse of the
original item-table order — refuting the claimed stable (original-order) tie
break. -/
theorem C8_rank_order_counterexample :
    mkRecommender exKm8 exDf8 = Except.ok exSt8 ∧
    ((recommend exSt8 none none none 10 (1 / 10) none).getD 0 default).similarity_score =
      ((recommend exSt8 none none none 10 (1 / 10) none).getD 1 default).similarity_score ∧
    (recommend exSt8 none none none 10 (1 / 10) none).map (fun r => r.course_title) =
      ["beta", "alpha"] := by
  have hrec : recommend exSt8 none none none 10 (1 / 10) none =
      [formatRec none none (user_cluster exSt8 none none none (1 / 10))
        ⟨1, ⟨"beta", "X", "C", 4, some "1K", "Beginner", 1000, 1, 0⟩,
          cosineSim exP8 [0, 0, 0, 1, 1, 1, 0] * 1.2⟩,
       formatRec none none (user_cluster exSt8 none none none (1 / 10))
        ⟨0, ⟨"alpha", "X", "C", 4, some "1K", "Beginner", 1000, 1, 0⟩,
          cosineSim exP8 [0, 0, 0, 1, 1, 1, 0] * 1.2⟩] := by
    simp only [recommend, filterExcluded_none_none, ex8_scored_eq]
    rw [sortScoredDesc_pair
      ⟨0, ⟨"alpha", "X", "C", 4, some "1K", "Beginner", 1000, 1, 0⟩,
        cosineSim exP8 [0, 0, 0, 1, 1, 1, 0] * 1.2⟩
      ⟨1, ⟨"beta", "X", "C", 4, some "1K", "Beginner", 1000, 1, 0⟩,
        cosineSim exP8 [0, 0, 0, 1, 1, 1, 0] * 1.2⟩
      (le_refl _)]
    rfl
  rw [hrec]
  exact ⟨exMk8, rfl, rfl⟩

/- ### Concrete witnesses for the claim theorems with hypotheses -/

theorem C3_transform_dimensions_witness :
    fit_transform exDf = .ok (exM, exDf', exStF) ∧
    transform exStF exDf = .ok (exM, exDf') ∧
    (∀ row ∈ exM, row.length = exStF.feature_names.length) :=
  ⟨exFit, exTr, (C3_transform_dimensions exDf exDf exM exM exDf' exDf' exStF exFit exTr).1⟩

theorem C10_in_place_mutation_witness :
    fit_transform exDf = .ok (exM, exDf', exStF) ∧
    (∀ r' ∈ exDf', r'.enrollment_numeric.isSome ∧ r'.difficulty_encoded.isSome) ∧
    exDf' ≠ exDf := by
  have h := C10_in_place_mutation.2 exDf exM exDf' exStF exFit
  exact ⟨exFit, h.1,
    h.2 ⟨⟨"alpha", "X", "C", 5, some "2K", "Advanced", none, none⟩, by decide, Or.inl rfl⟩⟩

theorem C4_liked_fallback_witness :
    (["zzz"] : List String) ≠ [] ∧
    (poolAfterDifficulty exSt none).filter
      (fun p => (["zzz"] : List String).contains p.2.course_title) = [] ∧
    (poolAfterDifficulty exSt none).filter
      (fun p => (["zzz"] : List String).any (fun t => containsCI p.2.course_title t)) = [] ∧
    create_user_profile exSt none (some ["zzz"]) none (1 / 10) =
      create_user_profile exSt none none none (1 / 10) :=
  ⟨by decide, by decide, by decide,
   (C4_liked_fallback exSt none none (1 / 10) ["zzz"] (by decide) (by decide) (by decide)).2⟩

theorem C5_excluded_titles_witness :
    ("alpha" ∈ (some ["alpha"] : Option (List String)).getD [] ∨
      "alpha" ∈ (none : Option (List String)).getD []) ∧
    ∀ rec ∈ recommend exSt8 none (some ["alpha"]) none 10 (1 / 10) none,
      rec.course_title ≠ "alpha" :=
  ⟨Or.inl (by decide),
   C5_excluded_titles exSt8 none (some ["alpha"]) none none 10 (1 / 10) "alpha"
     (Or.inl (by decide))⟩

theorem C9_invalid_cluster_id_witness :
    ((5 : ℤ) < 0 ∨ (exSt8.kmeans.centroids.length : ℤ) ≤ 5) ∧
    ∃ d, get_cluster_info_route exSt8 5 = .error (.invalidClusterId d) :=
  ⟨Or.inr (by decide), C9_invalid_cluster_id exSt8 5 (Or.inr (by decide))⟩

/-- A tiny hand state for the C7 witness: the all-zero user profile makes every
base similarity 0 (the zero-norm guard) and lands the profile in centroid 1's
cluster, which course 0 shares and course 1 does not. -/
noncomputable def wSt7 : RecState :=
  { kmeans := ⟨[[1], [0]]⟩,
    courses := [⟨"a", "X", "C", 4, some "1K", "Beginner", 1000, 1, 1⟩,
                ⟨"b", "X", "C", 4, some "1K", "Beginner", 1000, 1, 0⟩],
    feature_matrix := [[0], [0]] }

lemma w7_profile : create_user_profile wSt7 none none none (1 / 10) = [0] := by
  have hunnorm : profileUnnorm wSt7 none none none (1 / 10) = [0] := by
    have hpool : profilePool wSt7 none none none =
        [(0, ⟨"a", "X", "C", 4, some "1K", "Beginner", 1000, 1, 1⟩),
         (1, ⟨"b", "X", "C", 4, some "1K", "Beginner", 1000, 1, 0⟩)] := by decide
    simp only [profileUnnorm, hpool]
    norm_num [wSt7, listMinQ, matMean, matColSum, listSmul,
      List.getD_cons_zero, List.getD_cons_succ]
  have hl0 : l2norm [(0 : ℝ)] = 0 := by simp [l2norm, listDot]
  rw [create_user_profile, hunnorm, normalizeProfile,
    if_neg (by rw [hl0]; exact lt_irrefl 0)]

lemma w7_sims : similarities wSt7 none none none (1 / 10) = [0, 0] := by
  have hl0 : l2norm [(0 : ℝ)] = 0 := by simp [l2norm, listDot]
  rw [similarities, show wSt7.feature_matrix = [[(0 : ℝ)], [0]] from rfl]
  simp [cosineSim, hl0]

lemma w7_uc : user_cluster wSt7 none none none (1 / 10) = 1 := by
  rw [user_cluster, w7_profile, kmeans_predict,
    show wSt7.kmeans = ⟨[[1], [0]]⟩ from rfl]
  simp only [List.map_cons, List.map_nil,
    show sqDist [(0 : ℝ)] [1] = 1 from by norm_num [sqDist],
    show sqDist [(0 : ℝ)] [0] = 0 from by norm_num [sqDist]]
  exact argmin2_lt 1 0 (by norm_num)

theorem C6_base_cosine_bounds_witness :
    (0 : ℝ) ∈ similarities wSt7 none none none (1 / 10) ∧
    (-1 ≤ (0 : ℝ) ∧ (0 : ℝ) ≤ 1) := by
  have hmem : (0 : ℝ) ∈ similarities wSt7 none none none (1 / 10) := by
    rw [w7_sims]
    exact List.mem_cons_self _ _
  exact ⟨hmem, C6_base_cosine_bounds wSt7 none none none (1 / 10) 0 hmem⟩

theorem C7_cluster_boost_witness :
    (similarities wSt7 none none none (1 / 10)).getD 0 0 =
      (similarities wSt7 none none none (1 / 10)).getD 1 0 ∧
    0 ≤ (similarities wSt7 none none none (1 / 10)).getD 0 0 ∧
    (wSt7.courses.getD 0 default).cluster = user_cluster wSt7 none none none (1 / 10) ∧
    (wSt7.courses.getD 1 default).cluster ≠ user_cluster wSt7 none none none (1 / 10) ∧
    ((scoredRows wSt7 none none none (1 / 10)).getD 1 default).score ≤
      ((scoredRows wSt7 none none none (1 / 10)).getD 0 default).score := by
  have hb : (similarities wSt7 none none none (1 / 10)).getD 0 0 =
      (similarities wSt7 none none none (1 / 10)).getD 1 0 := by
    rw [w7_sims]
    rfl
  have hp : (0 : ℝ) ≤ (similarities wSt7 none none none (1 / 10)).getD 0 0 := by
    rw [w7_sims]
    exact le_refl _
  have hc0 : (wSt7.courses.getD 0 default).cluster =
      user_cluster wSt7 none none none (1 / 10) := by
    rw [w7_uc]
    rfl
  have hc1 : (wSt7.courses.getD 1 default).cluster ≠
      user_cluster wSt7 none none none (1 / 10) := by
    rw [w7_uc]
    decide
  have hlen0 : 0 < (similarities wSt7 none none none (1 / 10)).length := by
    rw [w7_sims]
    simp
  have hlen1 : 1 < (similarities wSt7 none none none (1 / 10)).length := by
    rw [w7_sims]
    simp
  exact ⟨hb, hp, hc0, hc1,
    C7_cluster_boost wSt7 none none none (1 / 10) 0 1 (by decide) (by decide)
      hlen0 hlen1 hb hp (by decide) (by decide) hc0 hc1⟩

end UserRec
